import Mathlib

/-!
# PetLand forum API (`server/index.js`)

A shallow embedding of the Express handlers of the PetLand question-and-answer
forum: registration, login, session lookup, question listing and creation,
question detail and answer creation.

* JavaScript strings are sequences of UTF-16 code units, so `length`, `trim`,
  the two regular expressions and `!==` are the ones the handlers run.
* A JavaScript number is `NaN`, an infinity, or a finite dyadic value.
* The MySQL pool is a value of type `Db`: the four tables, the auto-increment
  counters, the statement counter and a fault schedule.  Every `pool.execute`
  either returns or throws; a throw lands in the handler's `catch`.
* A handler maps the request, `req.session.user` and the store to a response,
  the new `req.session.user` and the new store.
* `validate` is the check that the registration form of the client
  (`client/src/Register.jsx`) runs before it posts.
-/

set_option autoImplicit false

namespace PetLand

/-! ## JavaScript strings -/

/-- A JavaScript string, as its UTF-16 code units. -/
abbrev JsStr := List Nat

/-- The code units of one Unicode scalar value. -/
def utf16Units (c : Char) : List Nat :=
  if c.toNat < 0x10000 then [c.toNat]
  else [0xD800 + (c.toNat - 0x10000) / 0x400, 0xDC00 + (c.toNat - 0x10000) % 0x400]

/-- The code units of a list of scalar values. -/
def utf16List : List Char → JsStr
  | [] => []
  | c :: cs => utf16Units c ++ utf16List cs

/-- A string literal of the source, as a JavaScript string. -/
def utf16 (s : String) : JsStr := utf16List s.toList

/-- The code units `String.prototype.trim` strips: ECMAScript WhiteSpace
(TAB, VT, FF, SP, NBSP, ZWNBSP and the Unicode space separators) and
LineTerminator (LF, CR, LS, PS). -/
def isTrimUnit (c : Nat) : Bool :=
  c == 0x09 || c == 0x0A || c == 0x0B || c == 0x0C || c == 0x0D || c == 0x20 ||
  c == 0xA0 || c == 0x1680 || (0x2000 ≤ c && c ≤ 0x200A) || c == 0x2028 ||
  c == 0x2029 || c == 0x202F || c == 0x205F || c == 0x3000 || c == 0xFEFF

/-- The method `s.trim()`: white space removed from both ends. -/
def trim (s : JsStr) : JsStr :=
  ((s.dropWhile isTrimUnit).reverse.dropWhile isTrimUnit).reverse

/-- Membership in the character class `[a-zA-Z0-9_]`. -/
def isWordUnit (c : Nat) : Bool :=
  (0x61 ≤ c && c ≤ 0x7A) || (0x41 ≤ c && c ≤ 0x5A) || (0x30 ≤ c && c ≤ 0x39) || c == 0x5F

/-- Membership in the character class `[0-9]`. -/
def isDigitUnit (c : Nat) : Bool :=
  0x30 ≤ c && c ≤ 0x39

/-- The test `/^[a-zA-Z0-9_]+$/.test(s)`: one or more units, all in the class. -/
def testWordOnly (s : JsStr) : Bool :=
  !s.isEmpty && s.all isWordUnit

/-- The test `/[0-9]/.test(s)`: some unit is a digit. -/
def testHasDigit (s : JsStr) : Bool :=
  s.any isDigitUnit

/-! ## JavaScript numbers -/

/-- A JavaScript number after `Number(...)`: `NaN`, plus or minus `Infinity`,
or the finite value `m * 2 ^ e` (every finite double has this form; `1.5` is
`fin 3 (-1)`). -/
inductive JsNum where
  | nan
  | inf (negative : Bool)
  | fin (m : Int) (e : Int)
  deriving DecidableEq, Repr

namespace JsNum

/-- The test `Number.isFinite(x)`. -/
def isFinite : JsNum → Bool
  | fin _ _ => true
  | _ => false

/-- The comparison `x <= 0`; it is false for `NaN`. -/
def leZero : JsNum → Bool
  | nan => false
  | inf negative => negative
  | fin m _ => decide (m ≤ 0)

/-- The natural number a value is equal to, when there is one. -/
def toNat? : JsNum → Option Nat
  | fin m e =>
    if m < 0 then none
    else if 0 ≤ e then some (m.toNat * 2 ^ e.toNat)
    else if m.toNat % 2 ^ (-e).toNat = 0 then some (m.toNat / 2 ^ (-e).toNat)
    else none
  | _ => none

/-- The number with the value of a natural number. -/
def ofNat (n : Nat) : JsNum := fin (Int.ofNat n) 0

end JsNum

/-- The guard `!Number.isFinite(x) || x <= 0` shared by the four handlers that
take an id. -/
def invalidId (x : JsNum) : Bool :=
  !x.isFinite || x.leZero

/-! ## JSON responses -/

/-- A JSON value as passed to `res.json`; the numbers sent are ids and
`created_at` time stamps. -/
inductive Json where
  | null
  | bool (b : Bool)
  | num (n : Nat)
  | str (s : JsStr)
  | arr (xs : List Json)
  | obj (kvs : List (String × Json))

/-- What a handler sends: `res.status(status).json(body)`. -/
structure Response where
  status : Nat
  body : Json

/-- The body `{ error: msg }`. -/
def errorBody (msg : String) : Json :=
  .obj [("error", .str (utf16 msg))]

/-- The reply of every `catch` block. -/
def serverError : Response :=
  ⟨500, errorBody "Server error"⟩

/-- The object `{ id, username }` kept in `req.session.user`. -/
structure User where
  id : Nat
  username : JsStr
  deriving DecidableEq, Repr

/-- The JSON form of the session user. -/
def User.toJson (u : User) : Json :=
  .obj [("id", .num u.id), ("username", .str u.username)]

/-- The value of `req.session.user`; `none` when the session holds no user. -/
abbrev Session := Option User

/-! ## The data store -/

/-- A row of `users`. -/
structure UserRow where
  id : Nat
  username : JsStr
  password_hash : JsStr
  deriving DecidableEq, Repr

/-- A row of `categories`. -/
structure CategoryRow where
  id : Nat
  name : JsStr
  sort_order : Nat
  deriving DecidableEq, Repr

/-- A row of `questions`. -/
structure QuestionRow where
  id : Nat
  category_id : Nat
  user_id : Nat
  title : JsStr
  body : JsStr
  created_at : Nat
  deriving DecidableEq, Repr

/-- A row of `answers`. -/
structure AnswerRow where
  id : Nat
  question_id : Nat
  user_id : Nat
  body : JsStr
  created_at : Nat
  deriving DecidableEq, Repr

/-- Modelled from the spec: the SQL schema behind `pool` is not part of the
source.  The store holds the four tables of the data model; ids are
auto-increment integers, `created_at` is filled from the clock of the store,
usernames are unique and compared exactly, and a question or answer whose
references do not resolve is rejected at write time.  `faults` tells for each
coming `pool.execute` call whether it throws for a reason of its own (an
empty schedule: none does); `executed` counts the calls made so far. -/
structure Db where
  users : List UserRow
  categories : List CategoryRow
  questions : List QuestionRow
  answers : List AnswerRow
  nextUserId : Nat
  nextQuestionId : Nat
  nextAnswerId : Nat
  now : Nat
  faults : List Bool
  executed : Nat
  deriving DecidableEq, Repr

namespace Db

/-- Whether the next `pool.execute` call reaches the tables. -/
def up (db : Db) : Bool :=
  match db.faults with
  | [] => true
  | f :: _ => !f

/-- The store after one `pool.execute` call was made, before its effect. -/
def tick (db : Db) : Db :=
  { db with faults := db.faults.tail, executed := db.executed + 1 }

/-- The statement `SELECT id FROM users WHERE username = ? LIMIT 1`. -/
def selectUserId (db : Db) (username : JsStr) : Option (List Nat) × Db :=
  if db.up then
    (some (((db.users.filter (fun r => r.username == username)).take 1).map (fun r => r.id)),
      db.tick)
  else (none, db.tick)

/-- The statement
`SELECT id, username, password_hash FROM users WHERE username = ? LIMIT 1`. -/
def selectUser (db : Db) (username : JsStr) : Option (List UserRow) × Db :=
  if db.up then
    (some ((db.users.filter (fun r => r.username == username)).take 1), db.tick)
  else (none, db.tick)

/-- The statement `INSERT INTO users (username, password_hash) VALUES (?, ?)`;
the result is `insertId`. -/
def insertUser (db : Db) (username passwordHash : JsStr) : Option Nat × Db :=
  if db.up && !db.users.any (fun r => r.username == username) then
    (some db.nextUserId,
      { db.tick with
        users := db.users ++ [⟨db.nextUserId, username, passwordHash⟩],
        nextUserId := db.nextUserId + 1 })
  else (none, db.tick)

/-- The usernames that `JOIN users u ON u.id = ?` pairs with one row. -/
def usernamesOf (db : Db) (userId : Nat) : List JsStr :=
  (db.users.filter (fun u => u.id == userId)).map (fun u => u.username)

/-- A row of the question list query. -/
structure QuestionSummaryRow where
  id : Nat
  title : JsStr
  body : JsStr
  created_at : Nat
  username : JsStr
  deriving DecidableEq, Repr

/-- A row of the question detail query. -/
structure QuestionDetailRow where
  id : Nat
  title : JsStr
  body : JsStr
  created_at : Nat
  category_id : Nat
  username : JsStr
  deriving DecidableEq, Repr

/-- A row of the answer list query. -/
structure AnswerListRow where
  id : Nat
  body : JsStr
  created_at : Nat
  username : JsStr
  deriving DecidableEq, Repr

/-- The question list query: questions of a category joined with their
author, `ORDER BY q.created_at DESC`. -/
def selectQuestions (db : Db) (categoryId : JsNum) : Option (List QuestionSummaryRow) × Db :=
  if db.up then
    (some (List.insertionSort (fun a b => b.created_at ≤ a.created_at)
      ((db.questions.filter (fun q => categoryId.toNat? == some q.category_id)).flatMap
        (fun q => (db.usernamesOf q.user_id).map
          (fun n => (⟨q.id, q.title, q.body, q.created_at, n⟩ : QuestionSummaryRow))))),
      db.tick)
  else (none, db.tick)

/-- The question detail query: the question with that id joined with its
author, `LIMIT 1`. -/
def selectQuestion (db : Db) (questionId : JsNum) : Option (List QuestionDetailRow) × Db :=
  if db.up then
    (some (((db.questions.filter (fun q => questionId.toNat? == some q.id)).flatMap
        (fun q => (db.usernamesOf q.user_id).map
          (fun n => (⟨q.id, q.title, q.body, q.created_at, q.category_id, n⟩ :
            QuestionDetailRow)))).take 1),
      db.tick)
  else (none, db.tick)

/-- The answer list query: answers to a question joined with their author,
`ORDER BY a.created_at ASC`. -/
def selectAnswers (db : Db) (questionId : JsNum) : Option (List AnswerListRow) × Db :=
  if db.up then
    (some (List.insertionSort (fun a b => a.created_at ≤ b.created_at)
      ((db.answers.filter (fun a => questionId.toNat? == some a.question_id)).flatMap
        (fun a => (db.usernamesOf a.user_id).map
          (fun n => (⟨a.id, a.body, a.created_at, n⟩ : AnswerListRow))))),
      db.tick)
  else (none, db.tick)

/-- The statement
`INSERT INTO questions (category_id, user_id, title, body) VALUES (?, ?, ?, ?)`;
the result is `insertId`.  The write is rejected when the category or the
author does not exist. -/
def insertQuestion (db : Db) (categoryId : JsNum) (userId : Nat) (title body : JsStr) :
    Option Nat × Db :=
  match categoryId.toNat? with
  | none => (none, db.tick)
  | some cid =>
    if db.up && db.categories.any (fun c => c.id == cid) && db.users.any (fun u => u.id == userId)
    then
      (some db.nextQuestionId,
        { db.tick with
          questions := db.questions ++ [⟨db.nextQuestionId, cid, userId, title, body, db.now⟩],
          nextQuestionId := db.nextQuestionId + 1 })
    else (none, db.tick)

/-- The statement
`INSERT INTO answers (question_id, user_id, body) VALUES (?, ?, ?)`; the
result is `insertId`.  The write is rejected when the question or the author
does not exist. -/
def insertAnswer (db : Db) (questionId : JsNum) (userId : Nat) (body : JsStr) :
    Option Nat × Db :=
  match questionId.toNat? with
  | none => (none, db.tick)
  | some qid =>
    if db.up && db.questions.any (fun q => q.id == qid) && db.users.any (fun u => u.id == userId)
    then
      (some db.nextAnswerId,
        { db.tick with
          answers := db.answers ++ [⟨db.nextAnswerId, qid, userId, body, db.now⟩],
          nextAnswerId := db.nextAnswerId + 1 })
    else (none, db.tick)

end Db

/-- The two calls into the `bcrypt` package; `none` is a rejected promise. -/
structure Bcrypt where
  hash : JsStr → Option JsStr
  compare : JsStr → JsStr → Option Bool

/-- What a request leaves behind: the response sent, `req.session.user` and
the store. -/
structure Outcome where
  res : Response
  session : Session
  db : Db

/-! ## The handlers -/

/-- The expression `field || ""` on a body field that is a string or absent. -/
def orEmpty (field : Option JsStr) : JsStr :=
  field.getD []

/-- The body of `POST /api/register`; `acceptedTerms` is a boolean or absent. -/
structure RegisterBody where
  username : Option JsStr
  password : Option JsStr
  confirmPassword : Option JsStr
  acceptedTerms : Option Bool

/-- The body of `POST /api/login`. -/
structure LoginBody where
  username : Option JsStr
  password : Option JsStr

/-- The request of `POST /api/questions`; `categoryId` is
`Number(req.body.categoryId)`. -/
structure QuestionBody where
  categoryId : JsNum
  title : Option JsStr
  body : Option JsStr

/-- The response `res.status(400).json({ error: msg })` of a handler that
returns before its `try` block. -/
def reject (msg : String) (session : Session) (db : Db) : Outcome :=
  ⟨⟨400, errorBody msg⟩, session, db⟩

/-- The middleware `requireLogin`: `next` runs only when the session holds a
user. -/
def requireLogin (session : Session) (db : Db) (next : User → Outcome) : Outcome :=
  match session with
  | none => ⟨⟨401, errorBody "Not logged in"⟩, session, db⟩
  | some user => next user

/-- The handler of `GET /api/me`. -/
def me (session : Session) (db : Db) : Outcome :=
  match session with
  | none => ⟨⟨200, .obj [("user", .null)]⟩, session, db⟩
  | some user => ⟨⟨200, .obj [("user", user.toJson)]⟩, session, db⟩

/-- The handler of `POST /api/logout`: `req.session.destroy`, then
`{ ok: true }`. -/
def logout (_session : Session) (db : Db) : Outcome :=
  ⟨⟨200, .obj [("ok", .bool true)]⟩, none, db⟩

/-- The `try` block of `register` (lines 95 to 112), with its `catch`. -/
def registerTry (bcrypt : Bcrypt) (username password : JsStr) (session : Session) (db : Db) :
    Outcome :=
  match db.selectUserId username with
  | (none, db1) => ⟨serverError, session, db1⟩
  | (some existing, db1) =>
    if existing.length > 0 then ⟨⟨409, errorBody "Username already exists"⟩, session, db1⟩
    else
      match bcrypt.hash password with
      | none => ⟨serverError, session, db1⟩
      | some passwordHash =>
        match db1.insertUser username passwordHash with
        | (none, db2) => ⟨serverError, session, db2⟩
        | (some insertId, db2) =>
          let user : User := ⟨insertId, username⟩
          ⟨⟨201, .obj [("user", user.toJson)]⟩, some user, db2⟩

/-- The handler of `POST /api/register`. -/
def register (bcrypt : Bcrypt) (body : RegisterBody) (session : Session) (db : Db) : Outcome :=
  let username := trim (orEmpty body.username)
  let password := orEmpty body.password
  let confirmPassword := orEmpty body.confirmPassword
  let acceptedTerms := body.acceptedTerms.getD false
  if username.isEmpty then reject "Username required" session db
  else if username.length < 3 then reject "Username must be at least 3 chars" session db
  else if !testWordOnly username then reject "Username can use letters/numbers/_" session db
  else if password.isEmpty then reject "Password required" session db
  else if password.length < 8 then reject "Password must be at least 8 chars" session db
  else if !testHasDigit password then reject "Password must contain a number" session db
  else if password != confirmPassword then reject "Passwords do not match" session db
  else if !acceptedTerms then reject "You must accept the terms" session db
  else registerTry bcrypt username password session db

/-- The guards of `register` (lines 84 to 93) all pass. -/
def registerValid (body : RegisterBody) : Bool :=
  let username := trim (orEmpty body.username)
  let password := orEmpty body.password
  let confirmPassword := orEmpty body.confirmPassword
  !username.isEmpty && !(username.length < 3) && testWordOnly username &&
  !password.isEmpty && !(password.length < 8) && testHasDigit password &&
  !(password != confirmPassword) && body.acceptedTerms.getD false

/-- The handler of `POST /api/login`. -/
def login (bcrypt : Bcrypt) (body : LoginBody) (session : Session) (db : Db) : Outcome :=
  let username := trim (orEmpty body.username)
  let password := orEmpty body.password
  if username.isEmpty || password.isEmpty then
    reject "Username and password required" session db
  else
    match db.selectUser username with
    | (none, db1) => ⟨serverError, session, db1⟩
    | (some [], db1) => ⟨⟨401, errorBody "Invalid username or password"⟩, session, db1⟩
    | (some (userRow :: _), db1) =>
      match bcrypt.compare password userRow.password_hash with
      | none => ⟨serverError, session, db1⟩
      | some false => ⟨⟨401, errorBody "Invalid username or password"⟩, session, db1⟩
      | some true =>
        let user : User := ⟨userRow.id, userRow.username⟩
        ⟨⟨200, .obj [("user", user.toJson)]⟩, some user, db1⟩

/-- The handler of `GET /api/questions`; `categoryId` is
`Number(req.query.categoryId)`. -/
def listQuestions (categoryId : JsNum) (session : Session) (db : Db) : Outcome :=
  if invalidId categoryId then reject "categoryId is required" session db
  else
    match db.selectQuestions categoryId with
    | (none, db1) => ⟨serverError, session, db1⟩
    | (some rows, db1) =>
      ⟨⟨200, .obj [("questions", .arr (rows.map (fun r =>
          Json.obj [("id", .num r.id), ("title", .str r.title), ("body", .str r.body),
            ("createdAt", .num r.created_at), ("username", .str r.username)])))]⟩,
        session, db1⟩

/-- The handler of `POST /api/questions`, after `requireLogin` let it run. -/
def createQuestionBody (body : QuestionBody) (session : Session) (db : Db) (user : User) :
    Outcome :=
  let categoryId := body.categoryId
  let title := trim (orEmpty body.title)
  let text := trim (orEmpty body.body)
  if invalidId categoryId then reject "categoryId is required" session db
  else if title.length < 3 then reject "Title must be at least 3 chars" session db
  else if text.length < 3 then reject "Body must be at least 3 chars" session db
  else
    match db.insertQuestion categoryId user.id title text with
    | (none, db1) => ⟨serverError, session, db1⟩
    | (some insertId, db1) => ⟨⟨201, .obj [("id", .num insertId)]⟩, session, db1⟩

/-- The route `POST /api/questions`: `requireLogin`, then the handler. -/
def createQuestion (body : QuestionBody) (session : Session) (db : Db) : Outcome :=
  requireLogin session db (createQuestionBody body session db)

/-- The handler of `GET /api/questions/:id`; `questionId` is
`Number(req.params.id)`. -/
def getQuestion (questionId : JsNum) (session : Session) (db : Db) : Outcome :=
  if invalidId questionId then reject "Invalid id" session db
  else
    match db.selectQuestion questionId with
    | (none, db1) => ⟨serverError, session, db1⟩
    | (some [], db1) => ⟨⟨404, errorBody "Not found"⟩, session, db1⟩
    | (some (q :: _), db1) =>
      match db1.selectAnswers questionId with
      | (none, db2) => ⟨serverError, session, db2⟩
      | (some aRows, db2) =>
        ⟨⟨200, .obj [("question", .obj [("id", .num q.id), ("categoryId", .num q.category_id),
            ("title", .str q.title), ("body", .str q.body), ("createdAt", .num q.created_at),
            ("username", .str q.username),
            ("answers", .arr (aRows.map (fun r =>
              Json.obj [("id", .num r.id), ("body", .str r.body),
                ("createdAt", .num r.created_at), ("username", .str r.username)])))])]⟩,
          session, db2⟩

/-- The handler of `POST /api/questions/:id/answers`, after `requireLogin` let
it run; `questionId` is `Number(req.params.id)`. -/
def addAnswerBody (questionId : JsNum) (body : Option JsStr) (session : Session) (db : Db)
    (user : User) : Outcome :=
  let text := trim (orEmpty body)
  if invalidId questionId then reject "Invalid id" session db
  else if text.isEmpty then reject "Answer body required" session db
  else
    match db.insertAnswer questionId user.id text with
    | (none, db1) => ⟨serverError, session, db1⟩
    | (some insertId, db1) => ⟨⟨201, .obj [("id", .num insertId)]⟩, session, db1⟩

/-- The route `POST /api/questions/:id/answers`: `requireLogin`, then the
handler. -/
def addAnswer (questionId : JsNum) (body : Option JsStr) (session : Session) (db : Db) :
    Outcome :=
  requireLogin session db (addAnswerBody questionId body session db)


/-! ## Statements about ids -/

/-- The value is a finite number greater than zero: `m * 2 ^ e` with `0 < m`. -/
def JsNum.Positive : JsNum → Prop
  | .fin m _ => 0 < m
  | _ => False

instance (x : JsNum) : Decidable x.Positive := by
  cases x <;> unfold JsNum.Positive <;> infer_instance

/-! ## What a store shows of its users -/

/-- The columns of a `users` row other than the password hash. -/
def UserRow.identity (r : UserRow) : Nat × JsStr :=
  (r.id, r.username)

/-- The body `{ user: { id, username } }`. -/
def userBody (id : Nat) (username : JsStr) : Json :=
  .obj [("user", .obj [("id", .num id), ("username", .str username)])]

/-- A `users` row with its password hash replaced by another one. -/
def UserRow.rehash (f : JsStr → JsStr) (r : UserRow) : UserRow :=
  { r with password_hash := f r.password_hash }

/-- The error messages that `register` sends (lines 84 to 97 and 111). -/
def registerMessages : List String :=
  ["Username required", "Username must be at least 3 chars",
    "Username can use letters/numbers/_", "Password required",
    "Password must be at least 8 chars", "Password must contain a number",
    "Passwords do not match", "You must accept the terms", "Username already exists",
    "Server error"]

/-- The error messages that `login` sends (lines 119 to 138). -/
def loginMessages : List String :=
  ["Username and password required", "Invalid username or password", "Server error"]

/-! ## Sample values -/

/-- A stand-in for `bcrypt`: a hash is the password behind one unit of salt,
and the salt of a fresh hash is a dollar sign. -/
def sampleBcrypt : Bcrypt :=
  ⟨fun p => some (0x24 :: p), fun p h => some (!h.isEmpty && h.tail == p)⟩

/-- A store with the category `Cats`, the user `bob_99` (password `hunter22`),
no question, no answer and no fault. -/
def sampleDb : Db :=
  { users := [⟨1, utf16 "bob_99", 0x24 :: utf16 "hunter22"⟩]
    categories := [⟨1, utf16 "Cats", 1⟩]
    questions := []
    answers := []
    nextUserId := 2
    nextQuestionId := 1
    nextAnswerId := 1
    now := 100
    faults := []
    executed := 0 }

/-- The session of `bob_99`. -/
def sampleUser : User := ⟨1, utf16 "bob_99"⟩

/-! ## The registration form of the client (`Register.jsx`) -/

/-- The value of the registration form, the argument `v` of `validate`. -/
structure FormValue where
  username : JsStr
  password : JsStr
  confirmPassword : JsStr
  acceptedTerms : Bool

/-- The object `e` that `validate` returns: for each field, its message when
the field has one. -/
structure FormErrors where
  username : Option String
  password : Option String
  confirmPassword : Option String
  acceptedTerms : Option String
  deriving DecidableEq, Repr

/-- The function `validate` of `Register.jsx`. -/
def validate (v : FormValue) : FormErrors :=
  { username :=
      if (trim v.username).isEmpty then some "Username required"
      else if (trim v.username).length < 3 then some "Min 3 characters"
      else if !testWordOnly (trim v.username) then some "Letters/numbers/_ only"
      else none
    password :=
      if v.password.isEmpty then some "Password required"
      else if v.password.length < 8 then some "Min 8 characters"
      else if !testHasDigit v.password then some "Must include a number"
      else none
    confirmPassword :=
      if v.confirmPassword.isEmpty then some "Confirm password"
      else if v.password != v.confirmPassword then some "Passwords do not match"
      else none
    acceptedTerms :=
      if !v.acceptedTerms then some "You must accept the terms"
      else none }

/-- The error object `{}`, for which `Object.keys(e).length` is zero and
`submit` goes on to post the form. -/
def FormErrors.empty : FormErrors :=
  ⟨none, none, none, none⟩

/-- The body that `api.register(form)` posts. -/
def FormValue.toBody (v : FormValue) : RegisterBody :=
  ⟨some v.username, some v.password, some v.confirmPassword, some v.acceptedTerms⟩

/-! ## Key constraints and the question detail -/

/-- Modelled from the spec: the key constraints of the schema, which is not
part of the source.  User ids and question ids are unique, and the author of
every question and of every answer is a user. -/
def Db.Consistent (db : Db) : Prop :=
  (db.users.map (fun u => u.id)).Nodup ∧
  (db.questions.map (fun q => q.id)).Nodup ∧
  (∀ q ∈ db.questions, ∃ u ∈ db.users, u.id = q.user_id) ∧
  (∀ a ∈ db.answers, ∃ u ∈ db.users, u.id = a.user_id)

instance (db : Db) : Decidable db.Consistent := by
  unfold Db.Consistent
  infer_instance

/-- The key constraints hold and the auto-increment counters are ahead of
every id in use. -/
def Db.Sound (db : Db) : Prop :=
  db.Consistent ∧ (∀ u ∈ db.users, u.id < db.nextUserId) ∧
    (∀ q ∈ db.questions, q.id < db.nextQuestionId)

/-- The username of the user with an id; the empty string when there is none. -/
def Db.authorName (db : Db) (userId : Nat) : JsStr :=
  (db.usernamesOf userId).headD []

/-- The answers whose `question_id` is the given id, each with the username of
its author, in table order. -/
def Db.answersTo (db : Db) (questionId : Nat) : List Db.AnswerListRow :=
  (db.answers.filter (fun a => a.question_id == questionId)).map
    (fun a => ⟨a.id, a.body, a.created_at, db.authorName a.user_id⟩)

/-- The object that the detail handler makes of one answer row. -/
def answerJson (r : Db.AnswerListRow) : Json :=
  .obj [("id", .num r.id), ("body", .str r.body), ("createdAt", .num r.created_at),
    ("username", .str r.username)]

/-- A store with two users, two questions and three answers; the answers to
question 1 are in the table with the later one first. -/
def sampleForum : Db :=
  { users := [⟨1, utf16 "bob_99", 0x24 :: utf16 "hunter22"⟩,
      ⟨2, utf16 "amy_01", 0x24 :: utf16 "s3cretpass"⟩]
    categories := [⟨1, utf16 "Cats", 1⟩]
    questions := [⟨1, 1, 1, utf16 "Cat diet", utf16 "What food?", 100⟩,
      ⟨2, 1, 2, utf16 "Cat toys", utf16 "Which ones?", 120⟩]
    answers := [⟨1, 1, 2, utf16 "Try wet food", 300⟩,
      ⟨2, 2, 1, utf16 "A ball", 150⟩,
      ⟨3, 1, 1, utf16 "Dry food works", 200⟩]
    nextUserId := 3
    nextQuestionId := 3
    nextAnswerId := 4
    now := 400
    faults := []
    executed := 0 }

/-! ## Registration: validation -/

theorem registerTry_status_ne_400 (bcrypt : Bcrypt) (username password : JsStr)
    (session : Session) (db : Db) :
    (registerTry bcrypt username password session db).res.status ≠ 400 := by
  unfold registerTry
  repeat' split
  all_goals simp [serverError]

theorem register_of_valid (bcrypt : Bcrypt) (body : RegisterBody) (session : Session) (db : Db)
    (h : registerValid body = true) :
    register bcrypt body session db =
      registerTry bcrypt (trim (orEmpty body.username)) (orEmpty body.password) session db := by
  unfold registerValid at h
  simp only [Bool.and_eq_true, Bool.not_eq_true'] at h
  obtain ⟨⟨⟨⟨⟨⟨⟨h1, h2⟩, h3⟩, h4⟩, h5⟩, h6⟩, h7⟩, h8⟩ := h
  unfold register
  simp only [h1, h3, h4, h6, h7, h8]
  rw [if_neg (of_decide_eq_false h2), if_neg (of_decide_eq_false h5)]
  simp

theorem register_of_invalid (bcrypt : Bcrypt) (body : RegisterBody) (session : Session)
    (db : Db) (h : registerValid body = false) :
    ∃ msg, register bcrypt body session db = reject msg session db := by
  unfold registerValid at h
  unfold register
  simp only []
  split_ifs <;> first | exact ⟨_, rfl⟩ | simp_all

theorem register_status_400_iff (bcrypt : Bcrypt) (body : RegisterBody) (session : Session)
    (db : Db) :
    (register bcrypt body session db).res.status = 400 ↔ registerValid body = false := by
  constructor
  · intro h
    by_contra hv
    rw [Bool.not_eq_false] at hv
    rw [register_of_valid bcrypt body session db hv] at h
    exact registerTry_status_ne_400 _ _ _ _ _ h
  · intro h
    obtain ⟨msg, hm⟩ := register_of_invalid bcrypt body session db h
    rw [hm]
    rfl

theorem registerValid_iff (username password confirmPassword : JsStr) (acceptedTerms : Bool) :
    registerValid ⟨some username, some password, some confirmPassword, some acceptedTerms⟩ = true ↔
      ¬ ((trim username = [] ∨ (trim username).length < 3 ∨
            ∃ c ∈ trim username, isWordUnit c = false) ∨
          (password = [] ∨ password.length < 8 ∨ ∀ c ∈ password, isDigitUnit c = false) ∨
          confirmPassword ≠ password ∨ acceptedTerms ≠ true) := by
  simp only [registerValid, orEmpty, Option.getD_some, testWordOnly, testHasDigit]
  simp only [Bool.and_eq_true, Bool.not_eq_true', List.isEmpty_eq_false, decide_eq_false_iff_not,
    List.all_eq_true, List.any_eq_true, bne_eq_false_iff_eq, not_or, not_exists, not_and,
    not_forall, Bool.not_eq_false, ne_eq, not_not, not_lt, Classical.not_imp]
  constructor
  · rintro ⟨⟨⟨⟨⟨⟨⟨h1, h2⟩, _, h3⟩, h4⟩, h5⟩, x, hx, hd⟩, h6⟩, h7⟩
    exact ⟨⟨h1, h2, h3⟩, ⟨h4, h5, x, hx, hd⟩, h6.symm, h7⟩
  · rintro ⟨⟨h1, h2, h3⟩, ⟨h4, h5, x, hx, hd⟩, h6, h7⟩
    exact ⟨⟨⟨⟨⟨⟨⟨h1, h2⟩, h1, h3⟩, h4⟩, h5⟩, x, hx, hd⟩, h6.symm⟩, h7⟩

/-- C1: for string `username`, `password`, `confirmPassword` and boolean
`acceptedTerms`, `register` answers 400 exactly when a rule fails: the trimmed
username is empty, shorter than 3 code units or has a unit outside
`[A-Za-z0-9_]`; the password is empty, shorter than 8 code units or has no
digit; `confirmPassword` differs from `password`; `acceptedTerms` is not true.
Username "ab", password "short1" and password "longenough" are rejected
whatever the other fields are. -/
theorem register_rejects_iff_rule_fails (bcrypt : Bcrypt) (session : Session) (db : Db) :
    (∀ (username password confirmPassword : JsStr) (acceptedTerms : Bool),
      (register bcrypt ⟨some username, some password, some confirmPassword, some acceptedTerms⟩
          session db).res.status = 400 ↔
        ((trim username = [] ∨ (trim username).length < 3 ∨
            ∃ c ∈ trim username, isWordUnit c = false) ∨
          (password = [] ∨ password.length < 8 ∨ ∀ c ∈ password, isDigitUnit c = false) ∨
          confirmPassword ≠ password ∨ acceptedTerms ≠ true)) ∧
    (∀ password confirmPassword acceptedTerms,
      (register bcrypt ⟨some (utf16 "ab"), password, confirmPassword, acceptedTerms⟩
        session db).res.status = 400) ∧
    (∀ username confirmPassword acceptedTerms,
      (register bcrypt ⟨username, some (utf16 "short1"), confirmPassword, acceptedTerms⟩
        session db).res.status = 400) ∧
    (∀ username confirmPassword acceptedTerms,
      (register bcrypt ⟨username, some (utf16 "longenough"), confirmPassword, acceptedTerms⟩
        session db).res.status = 400) := by
  refine ⟨?_, ?_, ?_, ?_⟩
  · intro username password confirmPassword acceptedTerms
    rw [register_status_400_iff, ← Bool.not_eq_true, registerValid_iff, not_not]
  · intro password confirmPassword acceptedTerms
    rw [register_status_400_iff]
    have h : decide ((trim (orEmpty (some (utf16 "ab")))).length < 3) = true := by decide
    simp [registerValid, h]
  · intro username confirmPassword acceptedTerms
    rw [register_status_400_iff]
    have h : decide ((orEmpty (some (utf16 "short1"))).length < 8) = true := by decide
    simp [registerValid, h]
  · intro username confirmPassword acceptedTerms
    rw [register_status_400_iff]
    have h : testHasDigit (orEmpty (some (utf16 "longenough"))) = false := by decide
    simp [registerValid, h]


/-! ## The store: lookups and inserts -/

theorem up_of_faults_nil (db : Db) (h : db.faults = []) : db.up = true := by
  simp [Db.up, h]

theorem filter_username_eq_nil (users : List UserRow) (u : JsStr)
    (h : ∀ r ∈ users, r.username ≠ u) :
    users.filter (fun r => r.username == u) = [] := by
  rw [List.filter_eq_nil_iff]
  intro r hr
  simpa using h r hr

theorem any_username_eq_false (users : List UserRow) (u : JsStr)
    (h : ∀ r ∈ users, r.username ≠ u) :
    users.any (fun r => r.username == u) = false := by
  rw [List.any_eq_false]
  intro r hr
  simpa using h r hr

theorem registerTry_fresh (bcrypt : Bcrypt) (username password hash : JsStr) (session : Session)
    (db : Db) (hfresh : ∀ r ∈ db.users, r.username ≠ username) (hstore : db.faults = [])
    (hhash : bcrypt.hash password = some hash) :
    registerTry bcrypt username password session db =
      ⟨⟨201, .obj [("user", (⟨db.nextUserId, username⟩ : User).toJson)]⟩,
        some ⟨db.nextUserId, username⟩,
        { db.tick.tick with
          users := db.users ++ [⟨db.nextUserId, username, hash⟩],
          nextUserId := db.nextUserId + 1 }⟩ := by
  have hup : db.up = true := up_of_faults_nil db hstore
  have hup2 : db.tick.up = true := up_of_faults_nil _ (by simp [Db.tick, hstore])
  have hany : db.tick.users.any (fun r => r.username == username) = false :=
    any_username_eq_false _ _ hfresh
  simp [registerTry, Db.selectUserId, Db.insertUser, hup, hup2, hany, hhash,
    filter_username_eq_nil _ _ hfresh]
  simp [Db.tick]


theorem login_finds_appended (bcrypt : Bcrypt) (username password name hash : JsStr)
    (session : Session) (db : Db) (id : Nat)
    (hname : trim username = name) (hne : name ≠ []) (hpw : password ≠ [])
    (hup : db.up = true)
    (husers : ∃ old, db.users = old ++ [⟨id, name, hash⟩] ∧ ∀ r ∈ old, r.username ≠ name)
    (hcmp : bcrypt.compare password hash = some true) :
    (login bcrypt ⟨some username, some password⟩ session db).res =
      ⟨200, .obj [("user", (⟨id, name⟩ : User).toJson)]⟩ := by
  obtain ⟨old, hold, hfresh⟩ := husers
  have h1 : (trim username).isEmpty = false := by
    rw [hname]; cases name <;> simp_all
  have h2 : password.isEmpty = false := by
    cases password <;> simp_all
  simp [login, orEmpty, h1, h2, Db.selectUser, hup, hname, hold, List.filter_append,
    filter_username_eq_nil _ _ hfresh, hcmp, hne]

/-- C2: a registration that passes validation for a username not yet in the
store, on a store without faults and with `bcrypt` hashing the password and
accepting it against that hash, answers 201 with the user whose username is
the trimmed input; a login with the same username and password issued next
answers 200 with the same id and username. -/
theorem register_then_login_succeeds (bcrypt : Bcrypt)
    (username password confirmPassword : JsStr) (acceptedTerms : Bool)
    (session session2 : Session) (db : Db)
    (hvalid : registerValid
      ⟨some username, some password, some confirmPassword, some acceptedTerms⟩ = true)
    (hfresh : ∀ r ∈ db.users, r.username ≠ trim username)
    (hstore : db.faults = [])
    (hbcrypt : ∃ h, bcrypt.hash password = some h ∧ bcrypt.compare password h = some true) :
    ∃ id,
      (register bcrypt ⟨some username, some password, some confirmPassword, some acceptedTerms⟩
        session db).res.status = 201 ∧
      (register bcrypt ⟨some username, some password, some confirmPassword, some acceptedTerms⟩
        session db).res.body =
          .obj [("user", .obj [("id", .num id), ("username", .str (trim username))])] ∧
      (login bcrypt ⟨some username, some password⟩ session2
        (register bcrypt ⟨some username, some password, some confirmPassword, some acceptedTerms⟩
          session db).db).res.status = 200 ∧
      (login bcrypt ⟨some username, some password⟩ session2
        (register bcrypt ⟨some username, some password, some confirmPassword, some acceptedTerms⟩
          session db).db).res.body =
          .obj [("user", .obj [("id", .num id), ("username", .str (trim username))])] := by
  obtain ⟨hash, hhash, hcmp⟩ := hbcrypt
  have hv := (registerValid_iff username password confirmPassword acceptedTerms).1 hvalid
  simp only [not_or, not_exists, not_and] at hv
  obtain ⟨⟨hu, -, -⟩, ⟨hp, -, -⟩, -, -⟩ := hv
  rw [register_of_valid bcrypt _ session db hvalid]
  simp only [orEmpty, Option.getD_some]
  rw [registerTry_fresh bcrypt (trim username) password hash session db hfresh hstore hhash]
  refine ⟨db.nextUserId, rfl, rfl, ?_⟩
  have hl := login_finds_appended bcrypt username password (trim username) hash session2
    { db.tick.tick with
      users := db.users ++ [⟨db.nextUserId, trim username, hash⟩],
      nextUserId := db.nextUserId + 1 } db.nextUserId rfl hu hp
    (up_of_faults_nil _ (by simp [Db.tick, hstore])) ⟨db.users, rfl, hfresh⟩ hcmp
  rw [hl]
  exact ⟨rfl, rfl⟩


/-- Witness of C2: `alice1` registers on the sample store and logs in. -/
theorem register_then_login_succeeds_witness :
    ∃ id,
      (register sampleBcrypt
        ⟨some (utf16 " alice1 "), some (utf16 "abcd1234"), some (utf16 "abcd1234"), some true⟩
        none sampleDb).res.status = 201 ∧
      (register sampleBcrypt
        ⟨some (utf16 " alice1 "), some (utf16 "abcd1234"), some (utf16 "abcd1234"), some true⟩
        none sampleDb).res.body =
          .obj [("user", .obj [("id", .num id), ("username", .str (trim (utf16 " alice1 ")))])] ∧
      (login sampleBcrypt ⟨some (utf16 " alice1 "), some (utf16 "abcd1234")⟩ none
        (register sampleBcrypt
          ⟨some (utf16 " alice1 "), some (utf16 "abcd1234"), some (utf16 "abcd1234"), some true⟩
          none sampleDb).db).res.status = 200 ∧
      (login sampleBcrypt ⟨some (utf16 " alice1 "), some (utf16 "abcd1234")⟩ none
        (register sampleBcrypt
          ⟨some (utf16 " alice1 "), some (utf16 "abcd1234"), some (utf16 "abcd1234"), some true⟩
          none sampleDb).db).res.body =
          .obj [("user", .obj [("id", .num id), ("username", .str (trim (utf16 " alice1 ")))])] :=
  register_then_login_succeeds sampleBcrypt (utf16 " alice1 ") (utf16 "abcd1234")
    (utf16 "abcd1234") true none none sampleDb (by decide) (by decide) rfl
    ⟨0x24 :: utf16 "abcd1234", rfl, by decide⟩


/-! ## Registration: an existing username -/

theorem registerTry_existing (bcrypt : Bcrypt) (username password : JsStr) (session : Session)
    (db : Db) (hexists : ∃ r ∈ db.users, r.username = username) (hup : db.up = true) :
    registerTry bcrypt username password session db =
      ⟨⟨409, errorBody "Username already exists"⟩, session, db.tick⟩ := by
  obtain ⟨r, hr, hname⟩ := hexists
  have hmem : r ∈ db.users.filter (fun r => r.username == username) := by
    simp [List.mem_filter, hr, hname]
  cases hf : db.users.filter (fun r => r.username == username) with
  | nil => rw [hf] at hmem; cases hmem
  | cons a l => simp [registerTry, Db.selectUserId, hup, hf]

/-- C3: on a store that answers the lookup and already holds a user with the
trimmed username, a registration that passes validation answers 409
`Username already exists` whatever the password is; the `users` table and its
id counter are as before, one statement (the lookup) was run, and the session
is as before. -/
theorem register_existing_username_conflict (bcrypt : Bcrypt)
    (username password confirmPassword : JsStr) (acceptedTerms : Bool)
    (session : Session) (db : Db)
    (hvalid : registerValid
      ⟨some username, some password, some confirmPassword, some acceptedTerms⟩ = true)
    (hexists : ∃ r ∈ db.users, r.username = trim username)
    (hup : db.up = true) :
    (register bcrypt ⟨some username, some password, some confirmPassword, some acceptedTerms⟩
      session db).res.status = 409 ∧
    (register bcrypt ⟨some username, some password, some confirmPassword, some acceptedTerms⟩
      session db).res.body = errorBody "Username already exists" ∧
    (register bcrypt ⟨some username, some password, some confirmPassword, some acceptedTerms⟩
      session db).db.users = db.users ∧
    (register bcrypt ⟨some username, some password, some confirmPassword, some acceptedTerms⟩
      session db).db.nextUserId = db.nextUserId ∧
    (register bcrypt ⟨some username, some password, some confirmPassword, some acceptedTerms⟩
      session db).db.executed = db.executed + 1 ∧
    (register bcrypt ⟨some username, some password, some confirmPassword, some acceptedTerms⟩
      session db).session = session := by
  rw [register_of_valid bcrypt _ session db hvalid]
  simp only [orEmpty, Option.getD_some]
  rw [registerTry_existing bcrypt (trim username) password session db hexists hup]
  exact ⟨rfl, rfl, rfl, rfl, rfl, rfl⟩

/-- Witness of C3: `bob_99` registers again on the sample store with another
password. -/
theorem register_existing_username_conflict_witness :
    (register sampleBcrypt
      ⟨some (utf16 "bob_99 "), some (utf16 "another123"), some (utf16 "another123"), some true⟩
      none sampleDb).res.status = 409 ∧
    (register sampleBcrypt
      ⟨some (utf16 "bob_99 "), some (utf16 "another123"), some (utf16 "another123"), some true⟩
      none sampleDb).res.body = errorBody "Username already exists" ∧
    (register sampleBcrypt
      ⟨some (utf16 "bob_99 "), some (utf16 "another123"), some (utf16 "another123"), some true⟩
      none sampleDb).db.users = sampleDb.users ∧
    (register sampleBcrypt
      ⟨some (utf16 "bob_99 "), some (utf16 "another123"), some (utf16 "another123"), some true⟩
      none sampleDb).db.nextUserId = sampleDb.nextUserId ∧
    (register sampleBcrypt
      ⟨some (utf16 "bob_99 "), some (utf16 "another123"), some (utf16 "another123"), some true⟩
      none sampleDb).db.executed = sampleDb.executed + 1 ∧
    (register sampleBcrypt
      ⟨some (utf16 "bob_99 "), some (utf16 "another123"), some (utf16 "another123"), some true⟩
      none sampleDb).session = none :=
  register_existing_username_conflict sampleBcrypt (utf16 "bob_99 ") (utf16 "another123")
    (utf16 "another123") true none sampleDb (by decide) (by decide) (by decide)

/-! ## Login: failures -/

theorem login_unknown_username (bcrypt : Bcrypt) (username password : JsStr) (session : Session)
    (db : Db) (hu : trim username ≠ []) (hp : password ≠ []) (hup : db.up = true)
    (hnone : ∀ r ∈ db.users, r.username ≠ trim username) :
    login bcrypt ⟨some username, some password⟩ session db =
      ⟨⟨401, errorBody "Invalid username or password"⟩, session, db.tick⟩ := by
  have h1 : (trim username).isEmpty = false := by
    cases h : trim username <;> simp_all
  have h2 : password.isEmpty = false := by
    cases password <;> simp_all
  simp [login, orEmpty, h1, h2, Db.selectUser, hup, filter_username_eq_nil _ _ hnone]

theorem login_wrong_password (bcrypt : Bcrypt) (username password : JsStr) (session : Session)
    (db : Db) (hu : trim username ≠ []) (hp : password ≠ []) (hup : db.up = true)
    (hexists : ∃ r ∈ db.users, r.username = trim username)
    (hwrong : ∀ r ∈ db.users, r.username = trim username →
      bcrypt.compare password r.password_hash = some false) :
    login bcrypt ⟨some username, some password⟩ session db =
      ⟨⟨401, errorBody "Invalid username or password"⟩, session, db.tick⟩ := by
  have h1 : (trim username).isEmpty = false := by
    cases h : trim username <;> simp_all
  have h2 : password.isEmpty = false := by
    cases password <;> simp_all
  obtain ⟨r, hr, hname⟩ := hexists
  have hmem : r ∈ db.users.filter (fun r => r.username == trim username) := by
    simp [List.mem_filter, hr, hname]
  cases hf : db.users.filter (fun r => r.username == trim username) with
  | nil => rw [hf] at hmem; cases hmem
  | cons a l =>
    have ha : a ∈ db.users.filter (fun r => r.username == trim username) := by simp [hf]
    rw [List.mem_filter] at ha
    have hcmp := hwrong a ha.1 (by simpa using ha.2)
    simp [login, orEmpty, h1, h2, Db.selectUser, hup, hf, hcmp]


/-- C4 as stated fails: the one-space username is a non-empty string that no
user of the sample store has, and a login with it and a non-empty password is
answered 400, not 401. -/
theorem login_blank_username_is_400 :
    utf16 " " ≠ [] ∧ utf16 "hunter22" ≠ [] ∧
    (∀ r ∈ sampleDb.users, r.username ≠ utf16 " " ∧ r.username ≠ trim (utf16 " ")) ∧
    (login sampleBcrypt ⟨some (utf16 " "), some (utf16 "hunter22")⟩ none sampleDb).res.status
      = 400 := by
  refine ⟨by decide, by decide, by decide, by decide⟩

/-- C4, amended: for usernames that are non-empty after trimming and non-empty
passwords, on stores that answer the lookup, a login whose username exists
with a password that `bcrypt` does not accept and a login whose username does
not exist get the same response, 401 `Invalid username or password`, and both
leave the session as it was. -/
theorem login_failures_indistinguishable (bcrypt : Bcrypt)
    (username1 password1 username2 password2 : JsStr) (session1 session2 : Session)
    (db1 db2 : Db)
    (hu1 : trim username1 ≠ []) (hp1 : password1 ≠ [])
    (hu2 : trim username2 ≠ []) (hp2 : password2 ≠ [])
    (hup1 : db1.up = true) (hup2 : db2.up = true)
    (hexists : ∃ r ∈ db1.users, r.username = trim username1)
    (hwrong : ∀ r ∈ db1.users, r.username = trim username1 →
      bcrypt.compare password1 r.password_hash = some false)
    (hnone : ∀ r ∈ db2.users, r.username ≠ trim username2) :
    (login bcrypt ⟨some username1, some password1⟩ session1 db1).res.status = 401 ∧
    (login bcrypt ⟨some username2, some password2⟩ session2 db2).res.status = 401 ∧
    (login bcrypt ⟨some username1, some password1⟩ session1 db1).res.body =
      errorBody "Invalid username or password" ∧
    (login bcrypt ⟨some username2, some password2⟩ session2 db2).res.body =
      errorBody "Invalid username or password" ∧
    (login bcrypt ⟨some username1, some password1⟩ session1 db1).session = session1 ∧
    (login bcrypt ⟨some username2, some password2⟩ session2 db2).session = session2 := by
  rw [login_wrong_password bcrypt username1 password1 session1 db1 hu1 hp1 hup1 hexists hwrong,
    login_unknown_username bcrypt username2 password2 session2 db2 hu2 hp2 hup2 hnone]
  exact ⟨rfl, rfl, rfl, rfl, rfl, rfl⟩

/-- Witness of C4, amended: `bob_99` with a wrong password and the unknown
`nobody` on the sample store. -/
theorem login_failures_indistinguishable_witness :
    (login sampleBcrypt ⟨some (utf16 "bob_99"), some (utf16 "wrongpass1")⟩ none
      sampleDb).res.status = 401 ∧
    (login sampleBcrypt ⟨some (utf16 "nobody"), some (utf16 "hunter22")⟩ none
      sampleDb).res.status = 401 ∧
    (login sampleBcrypt ⟨some (utf16 "bob_99"), some (utf16 "wrongpass1")⟩ none
      sampleDb).res.body = errorBody "Invalid username or password" ∧
    (login sampleBcrypt ⟨some (utf16 "nobody"), some (utf16 "hunter22")⟩ none
      sampleDb).res.body = errorBody "Invalid username or password" ∧
    (login sampleBcrypt ⟨some (utf16 "bob_99"), some (utf16 "wrongpass1")⟩ none
      sampleDb).session = none ∧
    (login sampleBcrypt ⟨some (utf16 "nobody"), some (utf16 "hunter22")⟩ none
      sampleDb).session = none :=
  login_failures_indistinguishable sampleBcrypt (utf16 "bob_99") (utf16 "wrongpass1")
    (utf16 "nobody") (utf16 "hunter22") none none sampleDb sampleDb
    (by decide) (by decide) (by decide) (by decide) (by decide) (by decide)
    (by decide) (by decide) (by decide)


/-! ## Answers to a question that does not exist -/

theorem insertAnswer_missing_question (db : Db) (questionId : JsNum) (userId : Nat)
    (body : JsStr) (hmissing : ∀ q ∈ db.questions, questionId.toNat? ≠ some q.id) :
    db.insertAnswer questionId userId body = (none, db.tick) := by
  unfold Db.insertAnswer
  split
  · rfl
  · next qid hq =>
    have hany : db.questions.any (fun q => q.id == qid) = false := by
      rw [List.any_eq_false]
      intro q hmem
      have := hmissing q hmem
      rw [hq] at this
      intro hb
      exact this (congrArg some (eq_of_beq hb).symm)
    simp [hany]

/-- C5 as stated fails: on the sample store, which holds no question, the
logged-in `bob_99` answers question 7 with a non-empty body and gets 500, not
404. -/
theorem addAnswer_missing_question_is_500 :
    invalidId (.fin 7 0) = false ∧
    (∀ q ∈ sampleDb.questions, (JsNum.fin 7 0).toNat? ≠ some q.id) ∧
    trim (orEmpty (some (utf16 "Try wet food"))) ≠ [] ∧
    (addAnswer (.fin 7 0) (some (utf16 "Try wet food")) (some sampleUser)
      sampleDb).res.status = 500 := by
  refine ⟨by decide, by decide, by decide, by decide⟩

/-- C5, amended: for an authenticated author, an id that passes the guard and
refers to no question, and a body that is non-empty after trimming,
`addAnswer` answers 500 `Server error`: the rejected insert lands in the
`catch` block.  No answer is inserted and the session is as before. -/
theorem addAnswer_missing_question_server_error (user : User) (questionId : JsNum)
    (body : Option JsStr) (db : Db)
    (hid : invalidId questionId = false)
    (hmissing : ∀ q ∈ db.questions, questionId.toNat? ≠ some q.id)
    (hbody : trim (orEmpty body) ≠ []) :
    (addAnswer questionId body (some user) db).res.status = 500 ∧
    (addAnswer questionId body (some user) db).res.body = errorBody "Server error" ∧
    (addAnswer questionId body (some user) db).db.answers = db.answers ∧
    (addAnswer questionId body (some user) db).db.nextAnswerId = db.nextAnswerId ∧
    (addAnswer questionId body (some user) db).session = some user := by
  have hb : (trim (orEmpty body)).isEmpty = false := by
    cases h : trim (orEmpty body) <;> simp_all
  have hout : addAnswer questionId body (some user) db = ⟨serverError, some user, db.tick⟩ := by
    simp [addAnswer, requireLogin, addAnswerBody, hid, hb,
      insertAnswer_missing_question db questionId user.id _ hmissing]
  rw [hout]
  exact ⟨rfl, rfl, rfl, rfl, rfl⟩

/-- Witness of C5, amended: `bob_99` answers question 7 on the sample store. -/
theorem addAnswer_missing_question_server_error_witness :
    (addAnswer (.fin 7 0) (some (utf16 "Try wet food")) (some sampleUser)
      sampleDb).res.status = 500 ∧
    (addAnswer (.fin 7 0) (some (utf16 "Try wet food")) (some sampleUser)
      sampleDb).res.body = errorBody "Server error" ∧
    (addAnswer (.fin 7 0) (some (utf16 "Try wet food")) (some sampleUser)
      sampleDb).db.answers = sampleDb.answers ∧
    (addAnswer (.fin 7 0) (some (utf16 "Try wet food")) (some sampleUser)
      sampleDb).db.nextAnswerId = sampleDb.nextAnswerId ∧
    (addAnswer (.fin 7 0) (some (utf16 "Try wet food")) (some sampleUser)
      sampleDb).session = some sampleUser :=
  addAnswer_missing_question_server_error sampleUser (.fin 7 0) (some (utf16 "Try wet food"))
    sampleDb (by decide) (by decide) (by decide)


/-! ## The id guard -/

theorem invalidId_iff (x : JsNum) : invalidId x = true ↔ ¬ x.Positive := by
  cases x <;> simp [invalidId, JsNum.isFinite, JsNum.leZero, JsNum.Positive]

theorem invalidId_eq_false_iff (x : JsNum) : invalidId x = false ↔ x.Positive := by
  rw [← Bool.not_eq_true, invalidId_iff, not_not]

theorem listQuestions_status_400_iff (x : JsNum) (session : Session) (db : Db) :
    (listQuestions x session db).res.status = 400 ↔ invalidId x = true := by
  unfold listQuestions
  split_ifs with h
  · simp [reject, h]
  · simp only [h]
    repeat' split
    all_goals simp [serverError]

theorem getQuestion_status_400_iff (x : JsNum) (session : Session) (db : Db) :
    (getQuestion x session db).res.status = 400 ↔ invalidId x = true := by
  unfold getQuestion
  split_ifs with h
  · simp [reject, h]
  · simp only [h]
    repeat' split
    all_goals simp [serverError]

theorem listQuestions_executed (x : JsNum) (session : Session) (db : Db)
    (h : invalidId x = false) :
    (listQuestions x session db).db = db.tick := by
  unfold listQuestions Db.selectQuestions
  simp only [h, Bool.false_eq_true, if_false]
  split_ifs <;> rfl

theorem getQuestion_executed (x : JsNum) (session : Session) (db : Db)
    (h : invalidId x = false) :
    db.executed + 1 ≤ (getQuestion x session db).db.executed := by
  have h1 : (db.selectQuestion x).2 = db.tick := by
    unfold Db.selectQuestion; split_ifs <;> rfl
  have h2 : ∀ d : Db, (d.selectAnswers x).2 = d.tick := by
    intro d; unfold Db.selectAnswers; split_ifs <;> rfl
  unfold getQuestion
  simp only [h, Bool.false_eq_true, if_false]
  split
  · next db1 heq =>
    rw [heq] at h1
    simp only at h1
    subst h1
    simp [Db.tick]
  · next db1 heq =>
    rw [heq] at h1
    simp only at h1
    subst h1
    simp [Db.tick]
  · next q rest db1 heq =>
    rw [heq] at h1
    simp only at h1
    subst h1
    have h3 := h2 db.tick
    split
    · next db2 heq2 =>
      rw [heq2] at h3
      simp only at h3
      subst h3
      simp [Db.tick]
    · next aRows db2 heq2 =>
      rw [heq2] at h3
      simp only at h3
      subst h3
      simp [Db.tick]

/-- C6 as stated fails: 1.5 (`3 * 2 ^ (-1)`) is no integer, yet `listQuestions`
answers 200 and `getQuestion` answers 404 on the sample store, each after
running one query. -/
theorem non_integral_id_reaches_store :
    (JsNum.fin 3 (-1)).toNat? = none ∧
    (listQuestions (.fin 3 (-1)) none sampleDb).res.status = 200 ∧
    (listQuestions (.fin 3 (-1)) none sampleDb).db.executed = sampleDb.executed + 1 ∧
    (getQuestion (.fin 3 (-1)) none sampleDb).res.status = 404 ∧
    (getQuestion (.fin 3 (-1)) none sampleDb).db.executed = sampleDb.executed + 1 := by
  refine ⟨by decide, by decide, by decide, by decide, by decide⟩

/-- C6, amended: when the converted `categoryId` or `id` is not a finite number
greater than zero (`NaN`, an infinity, zero, negative), `listQuestions` and
`getQuestion` answer 400 and leave the store, its statement counter included,
and the session untouched; every finite value greater than zero, integral or
not, passes the guard, and the handler then runs its query. -/
theorem invalid_id_rejected_before_store (x : JsNum) (session : Session) (db : Db) :
    (¬ x.Positive →
      listQuestions x session db = ⟨⟨400, errorBody "categoryId is required"⟩, session, db⟩ ∧
      getQuestion x session db = ⟨⟨400, errorBody "Invalid id"⟩, session, db⟩) ∧
    (x.Positive →
      (listQuestions x session db).res.status ≠ 400 ∧
      (getQuestion x session db).res.status ≠ 400 ∧
      (listQuestions x session db).db.executed = db.executed + 1 ∧
      db.executed + 1 ≤ (getQuestion x session db).db.executed) := by
  constructor
  · intro h
    have hx := (invalidId_iff x).2 h
    simp [listQuestions, getQuestion, hx, reject]
  · intro h
    have hx := (invalidId_eq_false_iff x).2 h
    refine ⟨?_, ?_, ?_, getQuestion_executed x session db hx⟩
    · rw [Ne, listQuestions_status_400_iff, hx]; simp
    · rw [Ne, getQuestion_status_400_iff, hx]; simp
    · rw [listQuestions_executed x session db hx]; rfl

/-- Witness of C6, amended: the id 0 is rejected, the id 1.5 is not. -/
theorem invalid_id_rejected_before_store_witness :
    (listQuestions (.fin 0 0) none sampleDb =
        ⟨⟨400, errorBody "categoryId is required"⟩, none, sampleDb⟩ ∧
      getQuestion (.fin 0 0) none sampleDb = ⟨⟨400, errorBody "Invalid id"⟩, none, sampleDb⟩) ∧
    ((listQuestions (.fin 3 (-1)) none sampleDb).res.status ≠ 400 ∧
      (getQuestion (.fin 3 (-1)) none sampleDb).res.status ≠ 400 ∧
      (listQuestions (.fin 3 (-1)) none sampleDb).db.executed = sampleDb.executed + 1 ∧
      sampleDb.executed + 1 ≤ (getQuestion (.fin 3 (-1)) none sampleDb).db.executed) :=
  ⟨(invalid_id_rejected_before_store (.fin 0 0) none sampleDb).1 (by decide),
    (invalid_id_rejected_before_store (.fin 3 (-1)) none sampleDb).2 (by decide)⟩

/-! ## The login gate -/

/-- C7: with a session that holds no user, `createQuestion` and `addAnswer`
answer 401 `Not logged in` for every request body, the store (tables, counters
and statement counter) and the session are as before, and `requireLogin`
gives that outcome whatever handler stands behind it. -/
theorem unauthenticated_write_rejected (db : Db) :
    (∀ body : QuestionBody,
      createQuestion body none db = ⟨⟨401, errorBody "Not logged in"⟩, none, db⟩) ∧
    (∀ (questionId : JsNum) (body : Option JsStr),
      addAnswer questionId body none db = ⟨⟨401, errorBody "Not logged in"⟩, none, db⟩) ∧
    (∀ next : User → Outcome,
      requireLogin none db next = ⟨⟨401, errorBody "Not logged in"⟩, none, db⟩) :=
  ⟨fun _ => rfl, fun _ _ => rfl, fun _ => rfl⟩


/-! ## Creating a question -/

theorem createQuestion_status_400_iff (user : User) (body : QuestionBody) (db : Db) :
    (createQuestion body (some user) db).res.status = 400 ↔
      (invalidId body.categoryId = true ∨ (trim (orEmpty body.title)).length < 3 ∨
        (trim (orEmpty body.body)).length < 3) := by
  simp only [createQuestion, requireLogin, createQuestionBody]
  split_ifs with h1 h2 h3
  · simp [reject, h1]
  · simp [reject, h2]
  · simp [reject, h3]
  · simp only [h1, h2, h3, or_self, iff_false]
    repeat' split
    all_goals simp [serverError]

theorem insertQuestion_accepted (db : Db) (categoryId : JsNum) (userId cid : Nat)
    (title body : JsStr) (hup : db.up = true) (hcid : categoryId.toNat? = some cid)
    (hcat : ∃ c ∈ db.categories, c.id = cid) (huser : ∃ u ∈ db.users, u.id = userId) :
    db.insertQuestion categoryId userId title body =
      (some db.nextQuestionId,
        { db.tick with
          questions := db.questions ++ [⟨db.nextQuestionId, cid, userId, title, body, db.now⟩],
          nextQuestionId := db.nextQuestionId + 1 }) := by
  obtain ⟨c, hc, hcc⟩ := hcat
  obtain ⟨u, hu, huu⟩ := huser
  have h1 : db.categories.any (fun c => c.id == cid) = true :=
    List.any_eq_true.2 ⟨c, hc, by simp [hcc]⟩
  have h2 : db.users.any (fun u => u.id == userId) = true :=
    List.any_eq_true.2 ⟨u, hu, by simp [huu]⟩
  simp [Db.insertQuestion, hcid, hup, h1, h2]

theorem insertQuestion_rejected (db : Db) (categoryId : JsNum) (userId : Nat)
    (title body : JsStr)
    (h : db.up = false ∨ (∀ c ∈ db.categories, categoryId.toNat? ≠ some c.id) ∨
      (∀ u ∈ db.users, u.id ≠ userId)) :
    db.insertQuestion categoryId userId title body = (none, db.tick) := by
  unfold Db.insertQuestion
  split
  · rfl
  · next cid hcid =>
    rw [if_neg]
    intro hcond
    simp only [Bool.and_eq_true] at hcond
    obtain ⟨⟨hup, hcat⟩, huser⟩ := hcond
    rcases h with h | h | h
    · rw [hup] at h; cases h
    · obtain ⟨c, hc, hb⟩ := List.any_eq_true.1 hcat
      exact h c hc (by rw [hcid, eq_of_beq hb])
    · obtain ⟨u, hu, hb⟩ := List.any_eq_true.1 huser
      exact h u hu (eq_of_beq hb)

/-- C8 as stated fails: the sample store has no fault and no category 2, and
the logged-in `bob_99` posts a question that passes every guard, once for
category 2 and once for category 1.5; both get 500 and no row is inserted. -/
theorem createQuestion_unknown_category_is_500 :
    sampleDb.faults = [] ∧
    (JsNum.fin 2 0).Positive ∧ (JsNum.fin 3 (-1)).Positive ∧
    ¬ (trim (orEmpty (some (utf16 "Cat diet")))).length < 3 ∧
    ¬ (trim (orEmpty (some (utf16 "What food?")))).length < 3 ∧
    (createQuestion ⟨.fin 2 0, some (utf16 "Cat diet"), some (utf16 "What food?")⟩
      (some sampleUser) sampleDb).res.status = 500 ∧
    (createQuestion ⟨.fin 2 0, some (utf16 "Cat diet"), some (utf16 "What food?")⟩
      (some sampleUser) sampleDb).db.questions = sampleDb.questions ∧
    (createQuestion ⟨.fin 3 (-1), some (utf16 "Cat diet"), some (utf16 "What food?")⟩
      (some sampleUser) sampleDb).res.status = 500 ∧
    (createQuestion ⟨.fin 3 (-1), some (utf16 "Cat diet"), some (utf16 "What food?")⟩
      (some sampleUser) sampleDb).db.questions = sampleDb.questions := by
  refine ⟨rfl, by decide, by decide, by decide, by decide, by decide, by decide, by decide,
    by decide⟩

/-- C8, amended: for an authenticated request, `createQuestion` answers 400
exactly when `categoryId` is not a finite number greater than zero, or the
trimmed title or the trimmed body has fewer than 3 code units.  Otherwise it
runs one INSERT.  When the store answers the call, `categoryId` is the id of a
category and the session user is a row of `users`, the response is 201 with
the new id and exactly one row is added to `questions`: that id, the category,
the id of the session user, the trimmed title and body.  When the call fails,
or no category has that id (as for every non-integral `categoryId`), or the
session user is no row of `users`, the response is 500 `Server error` and no
row is added.  The other tables and the session are as before in both cases. -/
theorem createQuestion_validates_then_store_decides (user : User) (body : QuestionBody)
    (db : Db) :
    ((createQuestion body (some user) db).res.status = 400 ↔
      (¬ body.categoryId.Positive ∨ (trim (orEmpty body.title)).length < 3 ∨
        (trim (orEmpty body.body)).length < 3)) ∧
    (¬ (¬ body.categoryId.Positive ∨ (trim (orEmpty body.title)).length < 3 ∨
        (trim (orEmpty body.body)).length < 3) →
      db.up = true →
      ∀ cid, body.categoryId.toNat? = some cid →
      (∃ c ∈ db.categories, c.id = cid) →
      (∃ u ∈ db.users, u.id = user.id) →
        (createQuestion body (some user) db).res.status = 201 ∧
        (createQuestion body (some user) db).res.body = .obj [("id", .num db.nextQuestionId)] ∧
        (createQuestion body (some user) db).db.questions =
          db.questions ++ [⟨db.nextQuestionId, cid, user.id, trim (orEmpty body.title),
            trim (orEmpty body.body), db.now⟩] ∧
        (createQuestion body (some user) db).db.nextQuestionId = db.nextQuestionId + 1 ∧
        (createQuestion body (some user) db).db.users = db.users ∧
        (createQuestion body (some user) db).db.categories = db.categories ∧
        (createQuestion body (some user) db).db.answers = db.answers ∧
        (createQuestion body (some user) db).session = some user) ∧
    (¬ (¬ body.categoryId.Positive ∨ (trim (orEmpty body.title)).length < 3 ∨
        (trim (orEmpty body.body)).length < 3) →
      (db.up = false ∨ (∀ c ∈ db.categories, body.categoryId.toNat? ≠ some c.id) ∨
        (∀ u ∈ db.users, u.id ≠ user.id)) →
        (createQuestion body (some user) db).res.status = 500 ∧
        (createQuestion body (some user) db).res.body = errorBody "Server error" ∧
        (createQuestion body (some user) db).db.questions = db.questions ∧
        (createQuestion body (some user) db).db.nextQuestionId = db.nextQuestionId ∧
        (createQuestion body (some user) db).db.users = db.users ∧
        (createQuestion body (some user) db).db.categories = db.categories ∧
        (createQuestion body (some user) db).db.answers = db.answers ∧
        (createQuestion body (some user) db).session = some user) := by
  have hpass : ¬ (¬ body.categoryId.Positive ∨ (trim (orEmpty body.title)).length < 3 ∨
        (trim (orEmpty body.body)).length < 3) →
      createQuestion body (some user) db =
        match db.insertQuestion body.categoryId user.id (trim (orEmpty body.title))
            (trim (orEmpty body.body)) with
        | (none, db1) => ⟨serverError, some user, db1⟩
        | (some insertId, db1) => ⟨⟨201, .obj [("id", .num insertId)]⟩, some user, db1⟩ := by
    intro hvalid
    simp only [not_or, not_not, not_lt] at hvalid
    obtain ⟨hc, ht, hb⟩ := hvalid
    have hc1 := (invalidId_eq_false_iff _).2 hc
    simp only [createQuestion, requireLogin, createQuestionBody, hc1, Bool.false_eq_true,
      if_false]
    rw [if_neg (not_lt.2 ht), if_neg (not_lt.2 hb)]
  refine ⟨?_, ?_, ?_⟩
  · rw [createQuestion_status_400_iff, invalidId_iff]
  · intro hvalid hup cid hcid hcat huser
    rw [hpass hvalid, insertQuestion_accepted db _ _ cid _ _ hup hcid hcat huser]
    exact ⟨rfl, rfl, rfl, rfl, rfl, rfl, rfl, rfl⟩
  · intro hvalid hrej
    rw [hpass hvalid, insertQuestion_rejected db _ _ _ _ hrej]
    exact ⟨rfl, rfl, rfl, rfl, rfl, rfl, rfl, rfl⟩

/-- Witness of C8, amended: `bob_99` asks about the cat diet on the sample
store, in category 1, which exists, and in category 2, which does not. -/
theorem createQuestion_validates_then_store_decides_witness :
    ((createQuestion ⟨.fin 1 0, some (utf16 " Cat diet"), some (utf16 "What food?")⟩
        (some sampleUser) sampleDb).res.status = 201 ∧
      (createQuestion ⟨.fin 1 0, some (utf16 " Cat diet"), some (utf16 "What food?")⟩
        (some sampleUser) sampleDb).res.body = .obj [("id", .num sampleDb.nextQuestionId)] ∧
      (createQuestion ⟨.fin 1 0, some (utf16 " Cat diet"), some (utf16 "What food?")⟩
        (some sampleUser) sampleDb).db.questions =
          sampleDb.questions ++ [⟨sampleDb.nextQuestionId, 1, sampleUser.id,
            trim (orEmpty (some (utf16 " Cat diet"))),
            trim (orEmpty (some (utf16 "What food?"))), sampleDb.now⟩] ∧
      (createQuestion ⟨.fin 1 0, some (utf16 " Cat diet"), some (utf16 "What food?")⟩
        (some sampleUser) sampleDb).db.nextQuestionId = sampleDb.nextQuestionId + 1 ∧
      (createQuestion ⟨.fin 1 0, some (utf16 " Cat diet"), some (utf16 "What food?")⟩
        (some sampleUser) sampleDb).db.users = sampleDb.users ∧
      (createQuestion ⟨.fin 1 0, some (utf16 " Cat diet"), some (utf16 "What food?")⟩
        (some sampleUser) sampleDb).db.categories = sampleDb.categories ∧
      (createQuestion ⟨.fin 1 0, some (utf16 " Cat diet"), some (utf16 "What food?")⟩
        (some sampleUser) sampleDb).db.answers = sampleDb.answers ∧
      (createQuestion ⟨.fin 1 0, some (utf16 " Cat diet"), some (utf16 "What food?")⟩
        (some sampleUser) sampleDb).session = some sampleUser) ∧
    ((createQuestion ⟨.fin 2 0, some (utf16 " Cat diet"), some (utf16 "What food?")⟩
        (some sampleUser) sampleDb).res.status = 500 ∧
      (createQuestion ⟨.fin 2 0, some (utf16 " Cat diet"), some (utf16 "What food?")⟩
        (some sampleUser) sampleDb).res.body = errorBody "Server error" ∧
      (createQuestion ⟨.fin 2 0, some (utf16 " Cat diet"), some (utf16 "What food?")⟩
        (some sampleUser) sampleDb).db.questions = sampleDb.questions ∧
      (createQuestion ⟨.fin 2 0, some (utf16 " Cat diet"), some (utf16 "What food?")⟩
        (some sampleUser) sampleDb).db.nextQuestionId = sampleDb.nextQuestionId ∧
      (createQuestion ⟨.fin 2 0, some (utf16 " Cat diet"), some (utf16 "What food?")⟩
        (some sampleUser) sampleDb).db.users = sampleDb.users ∧
      (createQuestion ⟨.fin 2 0, some (utf16 " Cat diet"), some (utf16 "What food?")⟩
        (some sampleUser) sampleDb).db.categories = sampleDb.categories ∧
      (createQuestion ⟨.fin 2 0, some (utf16 " Cat diet"), some (utf16 "What food?")⟩
        (some sampleUser) sampleDb).db.answers = sampleDb.answers ∧
      (createQuestion ⟨.fin 2 0, some (utf16 " Cat diet"), some (utf16 "What food?")⟩
        (some sampleUser) sampleDb).session = some sampleUser) :=
  ⟨(createQuestion_validates_then_store_decides sampleUser
      ⟨.fin 1 0, some (utf16 " Cat diet"), some (utf16 "What food?")⟩ sampleDb).2.1
      (by decide) (by decide) 1 (by decide) (by decide) (by decide),
    (createQuestion_validates_then_store_decides sampleUser
      ⟨.fin 2 0, some (utf16 " Cat diet"), some (utf16 "What food?")⟩ sampleDb).2.2
      (by decide) (Or.inr (Or.inl (by decide)))⟩


/-! ## Validation errors leave no trace -/

theorem login_400_untouched (bcrypt : Bcrypt) (body : LoginBody) (session : Session) (db : Db)
    (h : (login bcrypt body session db).res.status = 400) :
    (login bcrypt body session db).db = db ∧ (login bcrypt body session db).session = session := by
  unfold login at h ⊢
  simp only [] at h ⊢
  split_ifs at h ⊢ with hg
  · exact ⟨rfl, rfl⟩
  · exfalso
    revert h
    repeat' split
    all_goals simp [serverError]

theorem addAnswer_400_untouched (questionId : JsNum) (body : Option JsStr) (session : Session)
    (db : Db) (h : (addAnswer questionId body session db).res.status = 400) :
    (addAnswer questionId body session db).db = db ∧
      (addAnswer questionId body session db).session = session := by
  cases session with
  | none => simp [addAnswer, requireLogin] at h
  | some user =>
    simp only [addAnswer, requireLogin, addAnswerBody] at h ⊢
    split_ifs at h ⊢ with h1 h2
    · exact ⟨rfl, rfl⟩
    · exact ⟨rfl, rfl⟩
    · exfalso
      revert h
      repeat' split
      all_goals simp [serverError]

theorem createQuestion_400_untouched (body : QuestionBody) (session : Session) (db : Db)
    (h : (createQuestion body session db).res.status = 400) :
    (createQuestion body session db).db = db ∧
      (createQuestion body session db).session = session := by
  cases session with
  | none => simp [createQuestion, requireLogin] at h
  | some user =>
    simp only [createQuestion, requireLogin, createQuestionBody] at h ⊢
    split_ifs at h ⊢ with h1 h2 h3
    · exact ⟨rfl, rfl⟩
    · exact ⟨rfl, rfl⟩
    · exact ⟨rfl, rfl⟩
    · exfalso
      revert h
      repeat' split
      all_goals simp [serverError]

/-- C9: whenever `register`, `login`, `listQuestions`, `createQuestion`,
`getQuestion` or `addAnswer` answers 400, the store after the request is the
store before it (tables, counters, and the statement counter: no
`pool.execute` call was made) and the session is as before. -/
theorem validation_error_leaves_store_and_session (bcrypt : Bcrypt) (session : Session)
    (db : Db) :
    (∀ body : RegisterBody, (register bcrypt body session db).res.status = 400 →
      (register bcrypt body session db).db = db ∧
      (register bcrypt body session db).session = session) ∧
    (∀ body : LoginBody, (login bcrypt body session db).res.status = 400 →
      (login bcrypt body session db).db = db ∧
      (login bcrypt body session db).session = session) ∧
    (∀ categoryId : JsNum, (listQuestions categoryId session db).res.status = 400 →
      (listQuestions categoryId session db).db = db ∧
      (listQuestions categoryId session db).session = session) ∧
    (∀ body : QuestionBody, (createQuestion body session db).res.status = 400 →
      (createQuestion body session db).db = db ∧
      (createQuestion body session db).session = session) ∧
    (∀ questionId : JsNum, (getQuestion questionId session db).res.status = 400 →
      (getQuestion questionId session db).db = db ∧
      (getQuestion questionId session db).session = session) ∧
    (∀ (questionId : JsNum) (body : Option JsStr),
      (addAnswer questionId body session db).res.status = 400 →
      (addAnswer questionId body session db).db = db ∧
      (addAnswer questionId body session db).session = session) := by
  refine ⟨?_, ?_, ?_, ?_, ?_, ?_⟩
  · intro body h
    obtain ⟨msg, hm⟩ := register_of_invalid bcrypt body session db
      ((register_status_400_iff bcrypt body session db).1 h)
    rw [hm]
    exact ⟨rfl, rfl⟩
  · intro body h
    exact login_400_untouched bcrypt body session db h
  · intro categoryId h
    have hx := (listQuestions_status_400_iff categoryId session db).1 h
    simp [listQuestions, hx, reject]
  · intro body h
    exact createQuestion_400_untouched body session db h
  · intro questionId h
    have hx := (getQuestion_status_400_iff questionId session db).1 h
    simp [getQuestion, hx, reject]
  · intro questionId body h
    exact addAnswer_400_untouched questionId body session db h

/-- Witness of C9: a login without a password on the sample store, in the
session of `bob_99`. -/
theorem validation_error_leaves_store_and_session_witness :
    (login sampleBcrypt ⟨some (utf16 "bob_99"), none⟩ (some sampleUser) sampleDb).db = sampleDb ∧
    (login sampleBcrypt ⟨some (utf16 "bob_99"), none⟩ (some sampleUser) sampleDb).session =
      some sampleUser :=
  (validation_error_leaves_store_and_session sampleBcrypt (some sampleUser) sampleDb).2.1
    ⟨some (utf16 "bob_99"), none⟩ (by decide)


/-! ## The user object of a response -/

theorem lookup_length_pos_iff (users : List UserRow) (u : JsStr) :
    0 < (((users.filter (fun r => r.username == u)).take 1).map (fun r => r.id)).length ↔
      users.any (fun r => r.username == u) = true := by
  induction users with
  | nil => simp
  | cons a t ih =>
    by_cases h : (a.username == u) = true
    · simp [List.filter_cons, h]
    · simp only [Bool.not_eq_true] at h
      simp only [List.filter_cons, h, List.any_cons, Bool.false_or]
      exact ih

theorem registerTry_res (bcrypt : Bcrypt) (username password : JsStr) (session : Session)
    (db : Db) :
    (registerTry bcrypt username password session db).res =
      if db.up = false then serverError
      else if db.users.any (fun r => r.username == username) = true then
        ⟨409, errorBody "Username already exists"⟩
      else if (bcrypt.hash password).isSome = false then serverError
      else if db.tick.up = false then serverError
      else ⟨201, userBody db.nextUserId username⟩ := by
  unfold registerTry Db.selectUserId
  cases hup : db.up with
  | false => simp
  | true =>
    simp only [if_true, Bool.true_eq_false, if_false]
    cases hany : db.users.any (fun r => r.username == username) with
    | true =>
      have hpos := (lookup_length_pos_iff db.users username).2 hany
      simp only [gt_iff_lt, hpos, if_true]
    | false =>
      have hpos : ¬ 0 < (((db.users.filter (fun r => r.username == username)).take 1).map
          (fun r => r.id)).length := by
        rw [lookup_length_pos_iff, hany]; simp
      simp only [gt_iff_lt, hpos, if_false, Bool.false_eq_true]
      cases hh : bcrypt.hash password with
      | none => simp
      | some hash =>
        have hany2 : db.tick.users.any (fun r => r.username == username) = false := hany
        unfold Db.insertUser
        cases hup2 : db.tick.up with
        | false => simp
        | true =>
          simp [hany2, userBody, User.toJson]
          rfl

theorem register_invalid_message (body : RegisterBody) (h : registerValid body = false) :
    ∃ msg ∈ registerMessages, ∀ (bcrypt : Bcrypt) (session : Session) (db : Db),
      register bcrypt body session db = reject msg session db := by
  by_cases h1 : (trim (orEmpty body.username)).isEmpty = true
  · exact ⟨"Username required", by simp [registerMessages],
      fun _ _ _ => by simp [register, h1]⟩
  by_cases h2 : (trim (orEmpty body.username)).length < 3
  · exact ⟨"Username must be at least 3 chars", by simp [registerMessages],
      fun _ _ _ => by simp [register, h1, h2]⟩
  by_cases h3 : (!testWordOnly (trim (orEmpty body.username))) = true
  · exact ⟨"Username can use letters/numbers/_", by simp [registerMessages],
      fun _ _ _ => by simp [register, h1, h2, h3]⟩
  by_cases h4 : (orEmpty body.password).isEmpty = true
  · exact ⟨"Password required", by simp [registerMessages],
      fun _ _ _ => by simp [register, h1, h2, h3, h4]⟩
  by_cases h5 : (orEmpty body.password).length < 8
  · exact ⟨"Password must be at least 8 chars", by simp [registerMessages],
      fun _ _ _ => by simp [register, h1, h2, h3, h4, h5]⟩
  by_cases h6 : (!testHasDigit (orEmpty body.password)) = true
  · exact ⟨"Password must contain a number", by simp [registerMessages],
      fun _ _ _ => by simp [register, h1, h2, h3, h4, h5, h6]⟩
  by_cases h7 : (orEmpty body.password != orEmpty body.confirmPassword) = true
  · exact ⟨"Passwords do not match", by simp [registerMessages],
      fun _ _ _ => by simp [register, h1, h2, h3, h4, h5, h6, h7]⟩
  by_cases h8 : (!body.acceptedTerms.getD false) = true
  · exact ⟨"You must accept the terms", by simp [registerMessages],
      fun _ _ _ => by simp [register, h1, h2, h3, h4, h5, h6, h7, h8]⟩
  exfalso
  simp only [Bool.not_eq_true] at h1 h4 h7
  simp only [Bool.not_eq_true, Bool.not_eq_false'] at h3 h6 h8
  simp [registerValid, h1, h2, h3, h4, h5, h6, h7, h8] at h

theorem register_body_cases (bcrypt : Bcrypt) (body : RegisterBody) (session : Session)
    (db : Db) :
    (∃ msg ∈ registerMessages, (register bcrypt body session db).res.body = errorBody msg) ∨
    (register bcrypt body session db).res.body =
      userBody db.nextUserId (trim (orEmpty body.username)) := by
  cases hv : registerValid body with
  | false =>
    obtain ⟨msg, hmem, hm⟩ := register_invalid_message body hv
    exact Or.inl ⟨msg, hmem, by rw [hm]; rfl⟩
  | true =>
    rw [register_of_valid bcrypt body session db hv, registerTry_res]
    split_ifs
    · exact Or.inl ⟨"Server error", by simp [registerMessages], rfl⟩
    · exact Or.inl ⟨"Username already exists", by simp [registerMessages], rfl⟩
    · exact Or.inl ⟨"Server error", by simp [registerMessages], rfl⟩
    · exact Or.inl ⟨"Server error", by simp [registerMessages], rfl⟩
    · exact Or.inr rfl

theorem any_username_of_identity (users1 users2 : List UserRow) (u : JsStr)
    (h : users1.map UserRow.identity = users2.map UserRow.identity) :
    users1.any (fun r => r.username == u) = users2.any (fun r => r.username == u) := by
  have key : ∀ users : List UserRow,
      users.any (fun r => r.username == u) =
        (users.map UserRow.identity).any (fun x => x.2 == u) := by
    intro users
    induction users with
    | nil => rfl
    | cons a t ih => simp only [List.map_cons, List.any_cons, ih, UserRow.identity]
  rw [key users1, key users2, h]

theorem register_res_hash_free (bcrypt1 bcrypt2 : Bcrypt) (body : RegisterBody)
    (session : Session) (db : Db) (users2 : List UserRow)
    (husers : db.users.map UserRow.identity = users2.map UserRow.identity)
    (hhash : ∀ p, (bcrypt1.hash p).isSome = (bcrypt2.hash p).isSome) :
    (register bcrypt1 body session db).res =
      (register bcrypt2 body session { db with users := users2 }).res := by
  cases hv : registerValid body with
  | false =>
    obtain ⟨msg, -, hm⟩ := register_invalid_message body hv
    rw [hm, hm]
    rfl
  | true =>
    rw [register_of_valid bcrypt1 body session db hv, register_of_valid bcrypt2 body session _ hv,
      registerTry_res, registerTry_res, hhash,
      any_username_of_identity db.users users2 _ husers]
    rfl

theorem login_body_cases (bcrypt : Bcrypt) (body : LoginBody) (session : Session) (db : Db) :
    (∃ msg ∈ loginMessages, (login bcrypt body session db).res.body = errorBody msg) ∨
    (∃ row ∈ db.users, row.username = trim (orEmpty body.username) ∧
      (login bcrypt body session db).res.body = userBody row.id row.username) := by
  unfold login
  simp only []
  split_ifs
  · exact Or.inl ⟨"Username and password required", by simp [loginMessages], rfl⟩
  · unfold Db.selectUser
    split_ifs
    · cases hf : (db.users.filter (fun r => r.username == trim (orEmpty body.username))).take 1
        with
      | nil => exact Or.inl ⟨"Invalid username or password", by simp [loginMessages], rfl⟩
      | cons row rest =>
        have hmem : row ∈ db.users.filter
            (fun r => r.username == trim (orEmpty body.username)) :=
          List.mem_of_mem_take (by rw [hf]; exact List.mem_cons_self row rest)
        rw [List.mem_filter] at hmem
        simp only []
        cases hc : bcrypt.compare (orEmpty body.password) row.password_hash with
        | none => exact Or.inl ⟨"Server error", by simp [loginMessages], rfl⟩
        | some b =>
          cases b with
          | false =>
            exact Or.inl ⟨"Invalid username or password", by simp [loginMessages], rfl⟩
          | true => exact Or.inr ⟨row, hmem.1, eq_of_beq hmem.2, rfl⟩
    · exact Or.inl ⟨"Server error", by simp [loginMessages], rfl⟩

theorem login_200_row (bcrypt : Bcrypt) (body : LoginBody) (session : Session) (db : Db)
    (h : (login bcrypt body session db).res.status = 200) :
    ∃ row rest,
      (db.users.filter (fun r => r.username == trim (orEmpty body.username))).take 1
        = row :: rest ∧
      (login bcrypt body session db).res.body = userBody row.id row.username := by
  unfold login at h ⊢
  simp only [] at h ⊢
  split_ifs at h ⊢ with hg
  · simp [reject] at h
  · unfold Db.selectUser at h ⊢
    split_ifs at h ⊢ with hup
    · cases hf : (db.users.filter (fun r => r.username == trim (orEmpty body.username))).take 1
        with
      | nil => simp [hf] at h
      | cons row rest =>
        simp only [hf] at h ⊢
        refine ⟨row, rest, rfl, ?_⟩
        cases hc : bcrypt.compare (orEmpty body.password) row.password_hash with
        | none => simp [hc, serverError] at h
        | some b =>
          cases b with
          | false => simp [hc] at h
          | true => simp [hc, userBody, User.toJson]
    · simp [serverError] at h

theorem identity_of_lookup (users1 users2 : List UserRow) (u : JsStr)
    (h : users1.map UserRow.identity = users2.map UserRow.identity) :
    ((users1.filter (fun r => r.username == u)).take 1).map UserRow.identity =
      ((users2.filter (fun r => r.username == u)).take 1).map UserRow.identity := by
  have key : ∀ users : List UserRow,
      ((users.filter (fun r => r.username == u)).take 1).map UserRow.identity =
        ((users.map UserRow.identity).filter (fun x => x.2 == u)).take 1 := by
    intro users
    rw [List.map_take, List.filter_map]
    rfl
  rw [key users1, key users2, h]

theorem lookup_rehash (users : List UserRow) (f : JsStr → JsStr) (u : JsStr) :
    ((users.map (UserRow.rehash f)).filter (fun r => r.username == u)).take 1 =
      ((users.filter (fun r => r.username == u)).take 1).map (UserRow.rehash f) := by
  rw [List.map_take, List.filter_map]
  rfl

theorem login_res_rehash (bcrypt1 bcrypt2 : Bcrypt) (f : JsStr → JsStr) (body : LoginBody)
    (session : Session) (db : Db)
    (hcmp : ∀ p h, bcrypt2.compare p (f h) = bcrypt1.compare p h) :
    (login bcrypt1 body session db).res =
      (login bcrypt2 body session { db with users := db.users.map (UserRow.rehash f) }).res := by
  have hup : ({ db with users := db.users.map (UserRow.rehash f) } : Db).up = db.up := rfl
  unfold login
  simp only []
  split_ifs
  · rfl
  · unfold Db.selectUser
    rw [hup]
    split_ifs
    · simp only [lookup_rehash]
      cases hf : (db.users.filter (fun r => r.username == trim (orEmpty body.username))).take 1
        with
      | nil => rfl
      | cons row rest =>
        simp only [List.map_cons, UserRow.rehash, hcmp]
        cases bcrypt1.compare (orEmpty body.password) row.password_hash with
        | none => rfl
        | some b => cases b <;> rfl
    · rfl

/-- C10: no response of `register`, `login` or `me` carries a password hash.
Every body of `register` is `{ error }` with one of its ten fixed messages or
`{ user: { id, username } }` with the new id and the trimmed input username;
every body of `login` is `{ error }` with one of its three fixed messages or
`{ user: { id, username } }` of a `users` row with the trimmed username; the
body of `me` is `{ user: null }` or the session user as `{ id, username }`.
The response of `register` is the same on stores that differ only in the
password hashes, whatever hash `bcrypt` computes; the response of `login` is
the same when every stored hash is replaced and `bcrypt` verifies the new hash
as it did the old; and two successful logins with the same request on stores
whose `users` rows agree on id and username have the same body. -/
theorem user_object_is_public_identity (bcrypt : Bcrypt) :
    (∀ (body : RegisterBody) (session : Session) (db : Db),
      (∃ msg ∈ registerMessages, (register bcrypt body session db).res.body =
        .obj [("error", .str (utf16 msg))]) ∨
      (register bcrypt body session db).res.body =
        .obj [("user", .obj [("id", .num db.nextUserId),
          ("username", .str (trim (orEmpty body.username)))])]) ∧
    (∀ (body : LoginBody) (session : Session) (db : Db),
      (∃ msg ∈ loginMessages, (login bcrypt body session db).res.body =
        .obj [("error", .str (utf16 msg))]) ∨
      (∃ row ∈ db.users, row.username = trim (orEmpty body.username) ∧
        (login bcrypt body session db).res.body =
          .obj [("user", .obj [("id", .num row.id), ("username", .str row.username)])])) ∧
    (∀ (db : Db), (me none db).res.body = .obj [("user", .null)]) ∧
    (∀ (user : User) (db : Db), (me (some user) db).res.body =
        .obj [("user", .obj [("id", .num user.id), ("username", .str user.username)])]) ∧
    (∀ (bcrypt2 : Bcrypt) (body : RegisterBody) (session : Session) (db : Db)
        (users2 : List UserRow),
      db.users.map UserRow.identity = users2.map UserRow.identity →
      (∀ p, (bcrypt.hash p).isSome = (bcrypt2.hash p).isSome) →
      (register bcrypt body session db).res =
        (register bcrypt2 body session { db with users := users2 }).res) ∧
    (∀ (bcrypt2 : Bcrypt) (f : JsStr → JsStr) (body : LoginBody) (session : Session) (db : Db),
      (∀ p h, bcrypt2.compare p (f h) = bcrypt.compare p h) →
      (login bcrypt body session db).res =
        (login bcrypt2 body session
          { db with users := db.users.map (UserRow.rehash f) }).res) ∧
    (∀ (body : LoginBody) (session1 session2 : Session) (db1 db2 : Db),
      db1.users.map UserRow.identity = db2.users.map UserRow.identity →
      (login bcrypt body session1 db1).res.status = 200 →
      (login bcrypt body session2 db2).res.status = 200 →
      (login bcrypt body session1 db1).res.body = (login bcrypt body session2 db2).res.body) := by
  refine ⟨register_body_cases bcrypt, login_body_cases bcrypt, fun _ => rfl, fun _ _ => rfl,
    ?_, ?_, ?_⟩
  · intro bcrypt2 body session db users2 husers hhash
    exact register_res_hash_free bcrypt bcrypt2 body session db users2 husers hhash
  · intro bcrypt2 f body session db hcmp
    exact login_res_rehash bcrypt bcrypt2 f body session db hcmp
  · intro body session1 session2 db1 db2 hsame h1 h2
    obtain ⟨row1, rest1, hr1, hb1⟩ := login_200_row bcrypt body session1 db1 h1
    obtain ⟨row2, rest2, hr2, hb2⟩ := login_200_row bcrypt body session2 db2 h2
    have hid := identity_of_lookup db1.users db2.users (trim (orEmpty body.username)) hsame
    rw [hr1, hr2] at hid
    simp only [List.map_cons, List.cons.injEq, UserRow.identity, Prod.mk.injEq] at hid
    rw [hb1, hb2, hid.1.1, hid.1.2]

/-- Witness of C10: `bob_99` logs in on the sample store and on the same store
with the password hashed under another salt; and `alice1` registers on both
with two `bcrypt` stand-ins that salt differently. -/
theorem user_object_is_public_identity_witness :
    (login sampleBcrypt ⟨some (utf16 "bob_99"), some (utf16 "hunter22")⟩ none
        sampleDb).res.body =
      (login sampleBcrypt ⟨some (utf16 "bob_99"), some (utf16 "hunter22")⟩ none
        { sampleDb with users := [⟨1, utf16 "bob_99", 0x25 :: utf16 "hunter22"⟩] }).res.body ∧
    (register sampleBcrypt
        ⟨some (utf16 "alice1"), some (utf16 "abcd1234"), some (utf16 "abcd1234"), some true⟩
        none sampleDb).res =
      (register ⟨fun p => some (0x25 :: p), sampleBcrypt.compare⟩
        ⟨some (utf16 "alice1"), some (utf16 "abcd1234"), some (utf16 "abcd1234"), some true⟩
        none { sampleDb with users := [⟨1, utf16 "bob_99", 0x25 :: utf16 "hunter22"⟩] }).res :=
  ⟨(user_object_is_public_identity sampleBcrypt).2.2.2.2.2.2
      ⟨some (utf16 "bob_99"), some (utf16 "hunter22")⟩ none none sampleDb
      { sampleDb with users := [⟨1, utf16 "bob_99", 0x25 :: utf16 "hunter22"⟩] }
      (by decide) (by decide) (by decide),
    (user_object_is_public_identity sampleBcrypt).2.2.2.2.1
      ⟨fun p => some (0x25 :: p), sampleBcrypt.compare⟩
      ⟨some (utf16 "alice1"), some (utf16 "abcd1234"), some (utf16 "abcd1234"), some true⟩
      none sampleDb [⟨1, utf16 "bob_99", 0x25 :: utf16 "hunter22"⟩]
      (by decide) (fun _ => rfl)⟩


/-! ## Session lookup and logout -/

/-- C11: for every session, with or without a user, `logout` answers 200
`{ ok: true }`, leaves the session without a user and the store as it was,
so `me` afterwards answers `{ user: null }`; logging out twice gives the
response and the state of logging out once; and `me` always answers 200, with
the session user as `{ id, username }` when there is one and `null` otherwise,
and changes neither session nor store. -/
theorem logout_clears_session_and_me_reads_it (db : Db) :
    (∀ session : Session,
      (logout session db).res.status = 200 ∧
      (logout session db).res.body = .obj [("ok", .bool true)] ∧
      (logout session db).session = none ∧
      (logout session db).db = db) ∧
    (∀ session : Session,
      (me (logout session db).session (logout session db).db).res.status = 200 ∧
      (me (logout session db).session (logout session db).db).res.body =
        .obj [("user", .null)]) ∧
    (∀ session : Session,
      logout (logout session db).session (logout session db).db = logout session db) ∧
    (∀ session : Session,
      (me session db).res.status = 200 ∧
      (me session db).session = session ∧
      (me session db).db = db) ∧
    (∀ user : User,
      (me (some user) db).res.body =
        .obj [("user", .obj [("id", .num user.id), ("username", .str user.username)])]) ∧
    (me none db).res.body = .obj [("user", .null)] := by
  refine ⟨fun _ => ⟨rfl, rfl, rfl, rfl⟩, fun _ => ⟨rfl, rfl⟩, fun _ => rfl, ?_, fun _ => rfl, rfl⟩
  intro session
  cases session <;> exact ⟨rfl, rfl, rfl⟩


/-! ## The client form against the server -/

theorem ite_some_eq_none {α : Type} (c : Prop) [Decidable c] (x : α) (y : Option α) :
    (if c then some x else y) = none ↔ ¬ c ∧ y = none := by
  by_cases h : c <;> simp [h]

theorem validate_empty_iff (v : FormValue) :
    validate v = FormErrors.empty ↔ registerValid v.toBody = true := by
  simp only [validate, FormErrors.empty, FormErrors.mk.injEq, registerValid, FormValue.toBody,
    orEmpty, Option.getD_some, ite_some_eq_none, and_true, Bool.and_eq_true, Bool.not_eq_true',
    Bool.not_eq_true, Bool.not_eq_false, decide_eq_false_iff_not, bne_eq_false_iff_eq, not_lt,
    List.isEmpty_eq_false, List.isEmpty_iff, ne_eq, not_not]
  constructor
  · rintro ⟨⟨h1, h2, h3⟩, ⟨h4, h5, h6⟩, ⟨-, h7⟩, h8⟩
    exact ⟨⟨⟨⟨⟨⟨⟨h1, h2⟩, h3⟩, h4⟩, h5⟩, h6⟩, h7⟩, h8⟩
  · rintro ⟨⟨⟨⟨⟨⟨⟨h1, h2⟩, h3⟩, h4⟩, h5⟩, h6⟩, h7⟩, h8⟩
    exact ⟨⟨h1, h2, h3⟩, ⟨h4, h5, h6⟩, ⟨fun hc => h4 (h7.trans hc), h7⟩, h8⟩

/-- C13: for every form value, `validate` of the client returns the empty
error object exactly when `register` of the server, given the same username,
password, confirmPassword and acceptedTerms, does not answer 400. -/
theorem validate_empty_iff_register_accepts (bcrypt : Bcrypt) (v : FormValue)
    (session : Session) (db : Db) :
    validate v = FormErrors.empty ↔
      (register bcrypt
        ⟨some v.username, some v.password, some v.confirmPassword, some v.acceptedTerms⟩
        session db).res.status ≠ 400 := by
  rw [Ne, register_status_400_iff, Bool.not_eq_false]
  exact validate_empty_iff v


/-! ## The question detail -/

theorem filter_key_single {α : Type} (key : α → Nat) (l : List α) (x : α)
    (hnodup : (l.map key).Nodup) (hx : x ∈ l) :
    l.filter (fun y => key y == key x) = [x] := by
  induction l with
  | nil => cases hx
  | cons a t ih =>
    rw [List.map_cons, List.nodup_cons] at hnodup
    obtain ⟨ha, ht⟩ := hnodup
    rcases List.mem_cons.1 hx with rfl | hxt
    · have hnone : t.filter (fun y => key y == key x) = [] := by
        rw [List.filter_eq_nil_iff]
        intro y hy hk
        exact ha (List.mem_map.2 ⟨y, hy, eq_of_beq hk⟩)
      simp [List.filter_cons, hnone]
    · have hne : (key a == key x) = false := by
        rw [beq_eq_false_iff_ne]
        intro hk
        exact ha (List.mem_map.2 ⟨x, hxt, hk.symm⟩)
      simp [List.filter_cons, hne, ih ht hxt]

theorem flatMap_singleton_eq_map {α β : Type} (f : α → List β) (g : α → β) (l : List α)
    (h : ∀ a ∈ l, f a = [g a]) : l.flatMap f = l.map g := by
  induction l with
  | nil => rfl
  | cons a t ih =>
    rw [List.flatMap_cons, List.map_cons, h a (List.mem_cons_self a t),
      ih (fun b hb => h b (List.mem_cons_of_mem a hb))]
    rfl

theorem usernamesOf_user (db : Db) (u : UserRow)
    (hnodup : (db.users.map (fun u => u.id)).Nodup) (hu : u ∈ db.users) :
    db.usernamesOf u.id = [u.username] := by
  unfold Db.usernamesOf
  rw [filter_key_single (fun u : UserRow => u.id) db.users u hnodup hu]
  rfl

theorem usernamesOf_author (db : Db) (userId : Nat)
    (hnodup : (db.users.map (fun u => u.id)).Nodup) (hu : ∃ u ∈ db.users, u.id = userId) :
    db.usernamesOf userId = [db.authorName userId] := by
  obtain ⟨u, hmem, rfl⟩ := hu
  simp [Db.authorName, usernamesOf_user db u hnodup hmem]


theorem beq_some_id (questionId : JsNum) (k n : Nat) (hk : questionId.toNat? = some k) :
    (questionId.toNat? == some n) = (n == k) := by
  rw [hk]
  by_cases h : n = k
  · subst h; simp
  · have h2 : ¬ k = n := fun e => h e.symm
    simp [h, h2]

theorem selectQuestion_found (db : Db) (questionId : JsNum) (q : QuestionRow)
    (hup : db.up = true) (hkeys : db.Consistent) (hq : q ∈ db.questions)
    (hid : questionId.toNat? = some q.id) :
    db.selectQuestion questionId =
      (some [⟨q.id, q.title, q.body, q.created_at, q.category_id, db.authorName q.user_id⟩],
        db.tick) := by
  obtain ⟨husers, hquestions, hauthor, -⟩ := hkeys
  have hfilter : db.questions.filter (fun x => questionId.toNat? == some x.id) = [q] := by
    rw [List.filter_congr (fun x _ => beq_some_id questionId q.id x.id hid)]
    exact filter_key_single (fun x : QuestionRow => x.id) db.questions q hquestions hq
  unfold Db.selectQuestion
  rw [if_pos hup, hfilter, List.flatMap_cons, List.flatMap_nil,
    usernamesOf_author db q.user_id husers (hauthor q hq)]
  rfl

theorem selectAnswers_rows (db : Db) (questionId : JsNum) (k : Nat)
    (hup : db.up = true) (hkeys : db.Consistent) (hid : questionId.toNat? = some k) :
    db.selectAnswers questionId =
      (some (List.insertionSort (fun a b => a.created_at ≤ b.created_at) (db.answersTo k)),
        db.tick) := by
  obtain ⟨husers, -, -, hauthor⟩ := hkeys
  unfold Db.selectAnswers Db.answersTo
  rw [if_pos hup, List.filter_congr (fun x _ => beq_some_id questionId k x.question_id hid)]
  rw [flatMap_singleton_eq_map _
    (fun a : AnswerRow => (⟨a.id, a.body, a.created_at, db.authorName a.user_id⟩ :
      Db.AnswerListRow))]
  intro a ha
  rw [usernamesOf_author db a.user_id husers (hauthor a (List.mem_of_mem_filter ha))]
  rfl

theorem selectQuestion_missing (db : Db) (questionId : JsNum) (hup : db.up = true)
    (hmissing : ∀ q ∈ db.questions, questionId.toNat? ≠ some q.id) :
    db.selectQuestion questionId = (some [], db.tick) := by
  have hfilter : db.questions.filter (fun x => questionId.toNat? == some x.id) = [] := by
    rw [List.filter_eq_nil_iff]
    intro x hx hb
    exact hmissing x hx (eq_of_beq hb)
  unfold Db.selectQuestion
  rw [if_pos hup, hfilter]
  rfl


theorem sampleForum_answers_in_time_order :
    (sampleForum.selectAnswers (.fin 1 0)).1 =
      some [⟨3, utf16 "Dry food works", 200, utf16 "bob_99"⟩,
        ⟨1, utf16 "Try wet food", 300, utf16 "amy_01"⟩] := by
  decide

/-- C12: on a store without faults and for an id that passes the guard,
`getQuestion` answers 404 `Not found` when no question has the id.  When the
key constraints hold and a question has the id, it answers 200 with that
question, the username of its author, and an `answers` array made row by row,
in order, of rows that are a permutation of the answers to that question, each
with the username of its author, and are sorted by `created_at` ascending,
whatever the order of the answers in the table. -/
theorem getQuestion_not_found_or_detail (questionId : JsNum) (session : Session) (db : Db)
    (hid : questionId.Positive) (hstore : db.faults = []) :
    ((∀ q ∈ db.questions, questionId.toNat? ≠ some q.id) →
      (getQuestion questionId session db).res.status = 404 ∧
      (getQuestion questionId session db).res.body = errorBody "Not found") ∧
    (db.Consistent → ∀ q ∈ db.questions, questionId.toNat? = some q.id →
      ∃ rows : List Db.AnswerListRow,
        rows.Perm (db.answersTo q.id) ∧
        rows.Sorted (fun a b => a.created_at ≤ b.created_at) ∧
        (getQuestion questionId session db).res.status = 200 ∧
        (getQuestion questionId session db).res.body =
          .obj [("question", .obj [("id", .num q.id), ("categoryId", .num q.category_id),
            ("title", .str q.title), ("body", .str q.body), ("createdAt", .num q.created_at),
            ("username", .str (db.authorName q.user_id)),
            ("answers", .arr (rows.map answerJson))])] ∧
        (rows.map answerJson).length = (db.answersTo q.id).length) := by
  have hguard : invalidId questionId = false := (invalidId_eq_false_iff questionId).2 hid
  have hup : db.up = true := up_of_faults_nil db hstore
  have hup2 : db.tick.up = true := up_of_faults_nil _ (by simp [Db.tick, hstore])
  constructor
  · intro hmissing
    have hout : getQuestion questionId session db =
        ⟨⟨404, errorBody "Not found"⟩, session, db.tick⟩ := by
      simp [getQuestion, hguard, selectQuestion_missing db questionId hup hmissing]
    rw [hout]
    exact ⟨rfl, rfl⟩
  · intro hkeys q hq hqid
    haveI : IsTotal Db.AnswerListRow (fun a b => a.created_at ≤ b.created_at) :=
      ⟨fun a b => Nat.le_total a.created_at b.created_at⟩
    haveI : IsTrans Db.AnswerListRow (fun a b => a.created_at ≤ b.created_at) :=
      ⟨fun _ _ _ hab hbc => Nat.le_trans hab hbc⟩
    have hkeys2 : db.tick.Consistent := hkeys
    have hanswers := selectAnswers_rows db.tick questionId q.id hup2 hkeys2 hqid
    refine ⟨List.insertionSort (fun a b => a.created_at ≤ b.created_at) (db.answersTo q.id),
      List.perm_insertionSort _ _, List.sorted_insertionSort _ _, ?_, ?_, ?_⟩
    · simp [getQuestion, hguard, selectQuestion_found db questionId q hup hkeys hq hqid, hanswers]
    · simp [getQuestion, hguard, selectQuestion_found db questionId q hup hkeys hq hqid, hanswers]
      rfl
    · rw [List.length_map]
      exact (List.perm_insertionSort _ _).length_eq


/-- Witness of C12: question 1 of the sample forum, whose two answers are in
the table with the later one first. -/
theorem getQuestion_not_found_or_detail_witness :
    ∃ rows : List Db.AnswerListRow,
      rows.Perm (sampleForum.answersTo 1) ∧
      rows.Sorted (fun a b => a.created_at ≤ b.created_at) ∧
      (getQuestion (.fin 1 0) none sampleForum).res.status = 200 ∧
      (getQuestion (.fin 1 0) none sampleForum).res.body =
        .obj [("question", .obj [("id", .num 1), ("categoryId", .num 1),
          ("title", .str (utf16 "Cat diet")), ("body", .str (utf16 "What food?")),
          ("createdAt", .num 100), ("username", .str (sampleForum.authorName 1)),
          ("answers", .arr (rows.map answerJson))])] ∧
      (rows.map answerJson).length = (sampleForum.answersTo 1).length :=
  (getQuestion_not_found_or_detail (.fin 1 0) none sampleForum (by decide) rfl).2 (by decide)
    ⟨1, 1, 1, utf16 "Cat diet", utf16 "What food?", 100⟩ (by decide) (by decide)


/-! ## The key constraints are kept by every handler -/

theorem nodup_map_append_fresh {α : Type} (key : α → Nat) (l : List α) (x : α) (bound : Nat)
    (hnodup : (l.map key).Nodup) (hbound : ∀ y ∈ l, key y < bound) (hx : key x = bound) :
    ((l ++ [x]).map key).Nodup := by
  rw [List.map_append, List.nodup_append]
  refine ⟨hnodup, by simp, ?_⟩
  intro k hk hk2
  obtain ⟨y, hy, rfl⟩ := List.mem_map.1 hk
  have hlt := hbound y hy
  simp only [List.map_cons, List.map_nil, List.mem_singleton] at hk2
  omega

theorem tick_sound (db : Db) (h : db.Sound) : db.tick.Sound := h

theorem insertUser_sound (db : Db) (username passwordHash : JsStr) (h : db.Sound) :
    (db.insertUser username passwordHash).2.Sound := by
  unfold Db.insertUser
  split_ifs
  · obtain ⟨⟨hu, hq, hqa, haa⟩, hub, hqb⟩ := h
    refine ⟨⟨?_, hq, ?_, ?_⟩, ?_, hqb⟩
    · exact nodup_map_append_fresh (fun u : UserRow => u.id) db.users _ db.nextUserId hu hub rfl
    · intro q hmem
      obtain ⟨u, hmu, hid⟩ := hqa q hmem
      exact ⟨u, List.mem_append_left _ hmu, hid⟩
    · intro a hmem
      obtain ⟨u, hmu, hid⟩ := haa a hmem
      exact ⟨u, List.mem_append_left _ hmu, hid⟩
    · intro u hmem
      rcases List.mem_append.1 hmem with hold | hnew
      · exact Nat.lt_succ_of_lt (hub u hold)
      · rw [List.mem_singleton] at hnew
        subst hnew
        exact Nat.lt_succ_self _
  · exact tick_sound db h

theorem any_id_exists (users : List UserRow) (userId : Nat)
    (h : users.any (fun u => u.id == userId) = true) : ∃ u ∈ users, u.id = userId := by
  obtain ⟨u, hu, hb⟩ := List.any_eq_true.1 h
  exact ⟨u, hu, eq_of_beq hb⟩

theorem insertQuestion_sound (db : Db) (categoryId : JsNum) (userId : Nat) (title body : JsStr)
    (h : db.Sound) : (db.insertQuestion categoryId userId title body).2.Sound := by
  unfold Db.insertQuestion
  split
  · exact tick_sound db h
  · split_ifs with hcond
    · obtain ⟨⟨hu, hq, hqa, haa⟩, hub, hqb⟩ := h
      simp only [Bool.and_eq_true] at hcond
      refine ⟨⟨hu, ?_, ?_, haa⟩, hub, ?_⟩
      · exact nodup_map_append_fresh (fun q : QuestionRow => q.id) db.questions _
          db.nextQuestionId hq hqb rfl
      · intro q hmem
        rcases List.mem_append.1 hmem with hold | hnew
        · exact hqa q hold
        · rw [List.mem_singleton] at hnew
          subst hnew
          exact any_id_exists db.users userId hcond.2
      · intro q hmem
        rcases List.mem_append.1 hmem with hold | hnew
        · exact Nat.lt_succ_of_lt (hqb q hold)
        · rw [List.mem_singleton] at hnew
          subst hnew
          exact Nat.lt_succ_self _
    · exact tick_sound db h

theorem insertAnswer_sound (db : Db) (questionId : JsNum) (userId : Nat) (body : JsStr)
    (h : db.Sound) : (db.insertAnswer questionId userId body).2.Sound := by
  unfold Db.insertAnswer
  split
  · exact tick_sound db h
  · split_ifs with hcond
    · obtain ⟨⟨hu, hq, hqa, haa⟩, hub, hqb⟩ := h
      simp only [Bool.and_eq_true] at hcond
      refine ⟨⟨hu, hq, hqa, ?_⟩, hub, hqb⟩
      intro a hmem
      rcases List.mem_append.1 hmem with hold | hnew
      · exact haa a hold
      · rw [List.mem_singleton] at hnew
        subst hnew
        exact any_id_exists db.users userId hcond.2
    · exact tick_sound db h


theorem registerTry_sound (bcrypt : Bcrypt) (username password : JsStr) (session : Session)
    (db : Db) (h : db.Sound) : (registerTry bcrypt username password session db).db.Sound := by
  have h1 : (db.selectUserId username).2 = db.tick := by
    unfold Db.selectUserId; split_ifs <;> rfl
  unfold registerTry
  split
  · next db1 heq =>
    rw [heq] at h1; simp only at h1; subst h1
    exact tick_sound db h
  · next existing db1 heq =>
    rw [heq] at h1; simp only at h1; subst h1
    split_ifs
    · exact tick_sound db h
    · split
      · exact tick_sound db h
      · next hash hh =>
        have h2 := insertUser_sound db.tick username hash (tick_sound db h)
        split
        · next db2 heq2 => rw [heq2] at h2; exact h2
        · next id db2 heq2 => rw [heq2] at h2; exact h2

theorem register_sound (bcrypt : Bcrypt) (body : RegisterBody) (session : Session) (db : Db)
    (h : db.Sound) : (register bcrypt body session db).db.Sound := by
  cases hv : registerValid body with
  | false =>
    obtain ⟨msg, hm⟩ := register_of_invalid bcrypt body session db hv
    rw [hm]; exact h
  | true =>
    rw [register_of_valid bcrypt body session db hv]
    exact registerTry_sound bcrypt _ _ session db h

theorem login_sound (bcrypt : Bcrypt) (body : LoginBody) (session : Session) (db : Db)
    (h : db.Sound) : (login bcrypt body session db).db.Sound := by
  have h1 : (db.selectUser (trim (orEmpty body.username))).2 = db.tick := by
    unfold Db.selectUser; split_ifs <;> rfl
  unfold login
  simp only []
  split_ifs
  · exact h
  · split
    · next db1 heq => rw [heq] at h1; simp only at h1; subst h1; exact tick_sound db h
    · next db1 heq => rw [heq] at h1; simp only at h1; subst h1; exact tick_sound db h
    · next row rest db1 heq =>
      rw [heq] at h1; simp only at h1; subst h1
      split <;> exact tick_sound db h

theorem listQuestions_sound (categoryId : JsNum) (session : Session) (db : Db)
    (h : db.Sound) : (listQuestions categoryId session db).db.Sound := by
  have h1 : (db.selectQuestions categoryId).2 = db.tick := by
    unfold Db.selectQuestions; split_ifs <;> rfl
  unfold listQuestions
  split_ifs
  · exact h
  · split
    · next db1 heq => rw [heq] at h1; simp only at h1; subst h1; exact tick_sound db h
    · next rows db1 heq => rw [heq] at h1; simp only at h1; subst h1; exact tick_sound db h

theorem getQuestion_sound (questionId : JsNum) (session : Session) (db : Db)
    (h : db.Sound) : (getQuestion questionId session db).db.Sound := by
  have h1 : (db.selectQuestion questionId).2 = db.tick := by
    unfold Db.selectQuestion; split_ifs <;> rfl
  have h2 : (db.tick.selectAnswers questionId).2 = db.tick.tick := by
    unfold Db.selectAnswers; split_ifs <;> rfl
  unfold getQuestion
  split_ifs
  · exact h
  · split
    · next db1 heq => rw [heq] at h1; simp only at h1; subst h1; exact tick_sound db h
    · next db1 heq => rw [heq] at h1; simp only at h1; subst h1; exact tick_sound db h
    · next q rest db1 heq =>
      rw [heq] at h1; simp only at h1; subst h1
      split
      · next db2 heq2 =>
        rw [heq2] at h2; simp only at h2; subst h2
        exact tick_sound _ (tick_sound db h)
      · next aRows db2 heq2 =>
        rw [heq2] at h2; simp only at h2; subst h2
        exact tick_sound _ (tick_sound db h)

theorem createQuestion_sound (body : QuestionBody) (session : Session) (db : Db)
    (h : db.Sound) : (createQuestion body session db).db.Sound := by
  cases session with
  | none => exact h
  | some user =>
    have h1 := insertQuestion_sound db body.categoryId user.id (trim (orEmpty body.title))
      (trim (orEmpty body.body)) h
    simp only [createQuestion, requireLogin, createQuestionBody]
    split_ifs
    · exact h
    · exact h
    · exact h
    · split
      · next db1 heq => rw [heq] at h1; exact h1
      · next id db1 heq => rw [heq] at h1; exact h1

theorem addAnswer_sound (questionId : JsNum) (body : Option JsStr) (session : Session)
    (db : Db) (h : db.Sound) : (addAnswer questionId body session db).db.Sound := by
  cases session with
  | none => exact h
  | some user =>
    have h1 := insertAnswer_sound db questionId user.id (trim (orEmpty body)) h
    simp only [addAnswer, requireLogin, addAnswerBody]
    split_ifs
    · exact h
    · exact h
    · split
      · next db1 heq => rw [heq] at h1; exact h1
      · next id db1 heq => rw [heq] at h1; exact h1

theorem sampleForum_sound : sampleForum.Sound := by
  refine ⟨by decide, by decide, by decide⟩

end PetLand

